import Mathlib

/-!
Verification development for the `lynk` printer-monitoring agent.

The Go sources embedded here are:
* `services/agent/internal/snmp/client.go` — the SNMP status aggregator
  (`Poll` and its probe helpers); and
* `internal/scheduler` — the bounded worker-pool scheduler.

Modelling conventions:
* Go strings are Lean `String`s; the Go standard-library string helpers
  (`strings.Split`, `strings.Contains`, `strings.TrimSpace`, `strings.Trim`)
  are re-implemented below over `List Char` so that every definition
  evaluates inside the kernel.
* Go `int` is `Int` (64-bit overflow never occurs on the small values the
  claims quantify over; the only narrowing conversion in the sources,
  `int(v)` on a `uint`, is modelled exactly by `goIntOfUint`).
* The SNMP transport (`gosnmp`) is an oracle: a function from OID to an
  optional typed value for scalar `Get`s, and from a base OID to an
  optional list of `(oid, value)` pairs for `Walk`s (`none` models a
  transport error).  Go map iteration order (used by `getTonerLevels` and
  `getPaperTrays` when ranging over their accumulation maps) is
  unspecified in Go; the oracle carries the order actually used as the
  `supplyOrder` / `trayOrder` components, and theorems that depend on it
  hypothesise only that it is a permutation of the accumulated keys.
* Wall-clock effects (`LastSeen := time.Now()`) are outside the model.
-/

/-- Does the character list `sep` occur at the head of `l`?
(Helper for the Go `strings` functions.) -/
def goStartsWith : List Char → List Char → Bool
  | [], _ => true
  | _ :: _, [] => false
  | c :: cs, d :: ds => c = d && goStartsWith cs ds

/-- Does `sub` occur somewhere inside `l`?  Models `strings.Contains`
(for the non-empty patterns the sources use). -/
def goContainsList (sub : List Char) : List Char → Bool
  | [] => goStartsWith sub []
  | c :: rest => goStartsWith sub (c :: rest) || goContainsList sub rest

/-- Go `strings.Contains`. -/
def goContains (s sub : String) : Bool :=
  goContainsList sub.data s.data

/-- Fuelled worker for `goSplit`; scans left to right, splitting around each
non-overlapping occurrence of `sep` (Go `strings.Split` semantics for a
non-empty separator).  The fuel is an upper bound on the number of scan
steps, which decreases by at least one each iteration. -/
def goSplitAux (sep : List Char) : Nat → List Char → List Char → List (List Char)
  | 0, _, acc => [acc.reverse]
  | _ + 1, [], acc => [acc.reverse]
  | fuel + 1, c :: rest, acc =>
    if goStartsWith sep (c :: rest) then
      acc.reverse :: goSplitAux sep fuel (List.drop sep.length (c :: rest)) []
    else
      goSplitAux sep fuel rest (c :: acc)

/-- Go `strings.Split` for the non-empty separators used by the sources. -/
def goSplit (s sep : String) : List String :=
  if sep.data.isEmpty then [s]
  else (goSplitAux sep.data (s.data.length + 1) s.data []).map String.mk

/-- Go `strings.TrimSpace` (ASCII whitespace suffices for the inputs the
claims range over). -/
def goTrimSpace (s : String) : String :=
  String.mk (((s.data.dropWhile Char.isWhitespace).reverse.dropWhile
    Char.isWhitespace).reverse)

/-- Go `strings.Trim(s, "\x22")`: strip leading and trailing double-quote
characters. -/
def trimQuotes (s : String) : String :=
  String.mk (((s.data.dropWhile (· = '"')).reverse.dropWhile (· = '"')).reverse)

/-- Go conversion `int(v)` applied to a platform-width `uint` (64-bit
two's-complement reinterpretation). -/
def goIntOfUint (n : Nat) : Int :=
  if n % 2 ^ 64 < 2 ^ 63 then ((n % 2 ^ 64 : Nat) : Int)
  else ((n % 2 ^ 64 : Nat) : Int) - 2 ^ 64

/-- The dynamic Go value carried by a `gosnmp.Counter32` variable: the
sources type-switch over `uint32`, `uint` and `int`. -/
inductive CVal where
  | u32 (n : Nat)
  | word (n : Nat)
  | gi (n : Int)
deriving DecidableEq, Repr

/-- The Go conversion `int(v)` applied to whichever dynamic type the
Counter32 value carries (the common body of the sources' type switches). -/
def CVal.toGoInt : CVal → Int
  | .u32 n => (n : Int)
  | .word n => goIntOfUint n
  | .gi n => n

/-- Rendering of the raw dynamic value by `fmt.Sprintf("%v", …)`. -/
def CVal.render : CVal → String
  | .u32 n => toString n
  | .word n => toString n
  | .gi n => toString n

/-- A typed SNMP variable value as the sources see it
(`gosnmp.Integer`, `gosnmp.Counter32`, `gosnmp.OctetString`,
`gosnmp.TimeTicks`, anything else). -/
inductive SnmpValue where
  | int (n : Int)
  | counter32 (c : CVal)
  | octets (s : String)
  | ticks (n : Nat)
  | nullv
deriving DecidableEq, Repr

/-- The `fmt.Sprintf("%v", variable.Value)` fallback used by the alert
walk for values that are neither octet strings nor integers. -/
def SnmpValue.renderV : SnmpValue → String
  | .int n => toString n
  | .counter32 c => c.render
  | .octets s => s
  | .ticks n => toString n
  | .nullv => "<nil>"

/-- The SNMP transport oracle: one poll's view of the device.
`get` models `gosnmp.Default.Get([oid])` returning one variable (`none` =
error or empty result), `walks` models `gosnmp.Default.Walk(base, visit)`
(`none` = walk error, `some entries` = a successful walk visiting
`entries` in order).  `supplyOrder` and `trayOrder` are the Go map
iteration orders used when ranging over the two walk accumulators. -/
structure Oracle where
  get : String → Option SnmpValue
  walks : String → Option (List (String × SnmpValue))
  supplyOrder : List String
  trayOrder : List String
  connOk : Bool

/-- `PaperTray` record from client.go. -/
structure PaperTray where
  index : Int := 0
  name : String := ""
  status : Int := 0
  capacity : Int := 0
deriving DecidableEq, Repr

/-- `PrinterStatus` record from client.go (the fields the claims are
about; `LastSeen` is wall-clock and outside the model; the remaining
legacy fields are never written by `Poll`).  Go's nil/empty slice
distinction for `ActiveAlerts` and `PaperTrays` is modelled with
`Option`: `none` is a nil slice, `some l` a non-nil slice. -/
structure PrinterStatus where
  host : String := ""
  model : String := ""
  serialNumber : String := ""
  firmwareVersion : String := ""
  deviceName : String := ""
  printerName : String := ""
  systemDescription : String := ""
  status : String := ""
  uptime : Nat := 0
  deviceStatus : Int := 0
  totalPages : Int := 0
  pageCounterUnit : Int := 0
  tonerLevel : Int := 0
  tonerMaxCapacity : Int := 0
  drumLevel : Int := 0
  drumMaxCapacity : Int := 0
  errorCount : Int := 0
  lastError : String := ""
  activeAlerts : Option (List String) := none
  paperTrays : Option (List PaperTray) := none
  memorySize : String := ""
  paperStatus : String := ""
  totalPaperJams : Int := 0
  capabilities : String := ""
deriving DecidableEq, Repr

/-- The record `Poll` builds before running any probe:
`&PrinterStatus{Host: host, LastSeen: time.Now(), Status: "unknown"}`. -/
def initStatus (host : String) : PrinterStatus :=
  { host := host, status := "unknown" }

/-! OID constants used by the probes (client.go). -/

def brotherCapOID : String := "1.3.6.1.4.1.2435.2.3.9.1.1.7.0"
def hrPrinterStatusOID : String := "1.3.6.1.2.1.25.3.5.1.1.1"
def hrDetectedErrorOID : String := "1.3.6.1.2.1.25.3.5.1.2.1"
def supplyBaseOID : String := "1.3.6.1.2.1.43.11.1.1"
def stdPageOID : String := "1.3.6.1.2.1.43.10.2.1.4.1.1"
def altPageOID : String := "1.3.6.1.2.1.43.10.2.1.4.1.2"
def brotherPageOID : String := "1.3.6.1.4.1.2435.2.3.9.4.2.1.1.1.6.1.4"
def brotherPageAltOID : String := "1.3.6.1.4.1.2435.2.3.9.4.2.1.1.1.6.1.5"
def brotherErrStatusOID : String := "1.3.6.1.4.1.2435.2.3.9.1.1.2.0"
def brotherErrDescOID : String := "1.3.6.1.4.1.2435.2.3.9.1.1.3.0"
def maintModelOID : String := "1.3.6.1.4.1.2435.2.4.3.99.3.1.6.1.2.1"
def maintSerialOID : String := "1.3.6.1.4.1.2435.2.4.3.99.3.1.6.1.2.2"
def sysNameOID : String := "1.3.6.1.2.1.1.5.0"
def maintFirmMainOID : String := "1.3.6.1.4.1.2435.2.4.3.99.3.1.6.1.2.7"
def maintFirmSubOID : String := "1.3.6.1.4.1.2435.2.4.3.99.3.1.6.1.2.9"
def brotherJamsOID : String := "1.3.6.1.4.1.2435.2.3.9.2.1.2.9.0"
def sysDescrOID : String := "1.3.6.1.2.1.1.1.0"
def prtNameOID : String := "1.3.6.1.2.1.43.5.1.1.16.1"
def prtGeneralStatusOID : String := "1.3.6.1.2.1.43.5.1.1.1.1"
def sysUpTimeOID : String := "1.3.6.1.2.1.1.3.0"
def counterUnitOID : String := "1.3.6.1.2.1.43.10.2.1.3.1.1"
def alertBaseOID : String := "1.3.6.1.2.1.43.18.1.1"
def trayBaseOID : String := "1.3.6.1.2.1.43.8.2.1"

/-- `parsePrinterStatus` from client.go: the generic hrPrinterStatus
enumeration. -/
def parsePrinterStatus (status : Int) : String :=
  if status = 1 then "other"
  else if status = 2 then "unknown"
  else if status = 3 then "idle"
  else if status = 4 then "printing"
  else if status = 5 then "warmup"
  else "unknown"

/-- `parseErrorState` from client.go: derived paper status from the
detected-error bitmask. -/
def parseErrorState (errorState : Int) : String :=
  if errorState = 0 then "ok"
  else if Int.land errorState 1 ≠ 0 then "paper_out"
  else if Int.land errorState 2 ≠ 0 then "paper_jam"
  else if Int.land errorState 4 ≠ 0 then "toner_low"
  else "error"

/-- `parseErrorDescription` from client.go: decode the error bitmask into
a comma-joined list of reasons (ascending bit order), with the
`"No errors"` and `"Unknown error (code: N)"` fallbacks. -/
def parseErrorDescription (errorState : Int) : String :=
  if errorState = 0 then "No errors"
  else
    let errs : List String :=
      (if Int.land errorState 1 ≠ 0 then ["Paper out"] else []) ++
      (if Int.land errorState 2 ≠ 0 then ["Paper jam"] else []) ++
      (if Int.land errorState 4 ≠ 0 then ["Toner low"] else []) ++
      (if Int.land errorState 8 ≠ 0 then ["Door open"] else []) ++
      (if Int.land errorState 16 ≠ 0 then ["Toner empty"] else []) ++
      (if Int.land errorState 32 ≠ 0 then ["Service required"] else [])
    if errs = [] then "Unknown error (code: " ++ toString errorState ++ ")"
    else String.intercalate ", " errs

/-- Specification-side bit table for the error decode: bit 0 = paper out,
bit 1 = paper jam, bit 2 = toner low, bit 3 = door open, bit 4 = toner
empty, bit 5 = service required, listed in ascending bit order. -/
def errorBitTable : List (Int × String) :=
  [(1, "Paper out"), (2, "Paper jam"), (4, "Toner low"),
   (8, "Door open"), (16, "Toner empty"), (32, "Service required")]

/-- Specification-side description: the reasons of exactly the set bits,
in ascending bit order. -/
def specErrorReasons (n : Int) : List String :=
  (errorBitTable.filter fun p => Int.land n p.1 != 0).map Prod.snd

/-- `getBrotherInfo` from client.go: read the Brother capability
descriptor, store it, and extract the model from its `MDL:` key. -/
def getBrotherInfo (o : Oracle) (st : PrinterStatus) : PrinterStatus :=
  match o.get brotherCapOID with
  | some (.octets value) =>
    let st := { st with capabilities := value }
    if goContains value "MDL:" then
      let parts := goSplit value "MDL:"
      if parts.length > 1 then
        let modelPart := (goSplit (parts.getD 1 "") ";").getD 0 ""
        { st with model := goTrimSpace modelPart }
      else st
    else st
  | _ => st

/-- First step of `getStandardPrinterStatus`: hrPrinterStatus decoded via
`parsePrinterStatus`. -/
def hrStatusStep (o : Oracle) (st : PrinterStatus) : PrinterStatus :=
  match o.get hrPrinterStatusOID with
  | some (.int v) => { st with status := parsePrinterStatus v }
  | _ => st

/-- Second step of `getStandardPrinterStatus`: hrPrinterDetectedErrorState
stored in `ErrorCount` and decoded into `PaperStatus`. -/
def errStateStep (o : Oracle) (st : PrinterStatus) : PrinterStatus :=
  match o.get hrDetectedErrorOID with
  | some (.int v) => { st with errorCount := v, paperStatus := parseErrorState v }
  | _ => st

/-- `getStandardPrinterStatus` from client.go (the loop over its two OIDs,
unrolled). -/
def getStandardPrinterStatus (o : Oracle) (st : PrinterStatus) : PrinterStatus :=
  errStateStep o (hrStatusStep o st)

/-- One candidate of the `getPageCounts` loop.  The `Bool` component is
the Go `break` flag of the surrounding `for` loop: a strictly positive
`gosnmp.Integer` value executes `break` (ending the loop), but in the
`gosnmp.Counter32` branch the `break` statements sit inside the inner
type `switch`, so they terminate only the switch and the candidate loop
continues — the embedding reproduces that behaviour exactly. -/
def pcStep (o : Oracle) (oid : String) (s : PrinterStatus × Bool) : PrinterStatus × Bool :=
  if s.2 then s
  else
    match o.get oid with
    | some (.int n) =>
      if n > 0 then ({ s.1 with totalPages := n }, true) else (s.1, false)
    | some (.counter32 c) =>
      let pages := c.toGoInt
      if pages > 0 then ({ s.1 with totalPages := pages }, false) else (s.1, false)
    | _ => (s.1, false)

/-- `getPageCounts` from client.go: the four page-count candidates in
priority order. -/
def getPageCounts (o : Oracle) (st : PrinterStatus) : PrinterStatus :=
  (pcStep o brotherPageAltOID (pcStep o brotherPageOID
    (pcStep o altPageOID (pcStep o stdPageOID (st, false))))).1

/-- One candidate of the `getErrorInfo` loop (same handler for each of its
three OIDs). -/
def errInfoStep (o : Oracle) (oid : String) (st : PrinterStatus) : PrinterStatus :=
  match o.get oid with
  | some (.int n) =>
    if n ≠ 0 then { st with lastError := parseErrorDescription n } else st
  | some (.octets s) =>
    if s ≠ "" then { st with lastError := s } else st
  | _ => st

/-- `getErrorInfo` from client.go (loop over its three OIDs, unrolled). -/
def getErrorInfo (o : Oracle) (st : PrinterStatus) : PrinterStatus :=
  errInfoStep o brotherErrDescOID (errInfoStep o brotherErrStatusOID
    (errInfoStep o hrDetectedErrorOID st))

/-- Maintenance-probe step for the Brother model name OID: extract the
model from `MODEL="…"` (split on `=`, strip quotes) and store it
unconditionally when the key is present. -/
def maintModelStep (o : Oracle) (st : PrinterStatus) : PrinterStatus :=
  match o.get maintModelOID with
  | some (.octets value) =>
    if goContains value "MODEL=" then
      let parts := goSplit value "="
      if parts.length > 1 then { st with model := trimQuotes (parts.getD 1 "") }
      else st
    else st
  | _ => st

/-- Maintenance-probe step for the Brother serial number OID
(`SERIAL="…"`). -/
def maintSerialStep (o : Oracle) (st : PrinterStatus) : PrinterStatus :=
  match o.get maintSerialOID with
  | some (.octets value) =>
    if goContains value "SERIAL=" then
      let parts := goSplit value "="
      if parts.length > 1 then
        { st with serialNumber := trimQuotes (parts.getD 1 "") }
      else st
    else st
  | _ => st

/-- Maintenance-probe step for sysName: used as a fallback serial number
only when non-empty and no serial has been found yet. -/
def maintSysNameStep (o : Oracle) (st : PrinterStatus) : PrinterStatus :=
  match o.get sysNameOID with
  | some (.octets value) =>
    if value ≠ "" ∧ st.serialNumber = "" then { st with serialNumber := value }
    else st
  | _ => st

/-- Maintenance-probe step for the main firmware OID (`FIRMVER="…"`). -/
def maintFirmMainStep (o : Oracle) (st : PrinterStatus) : PrinterStatus :=
  match o.get maintFirmMainOID with
  | some (.octets value) =>
    if goContains value "FIRMVER=" then
      let parts := goSplit value "="
      if parts.length > 1 then
        { st with firmwareVersion := trimQuotes (parts.getD 1 "") }
      else st
    else st
  | _ => st

/-- Maintenance-probe step for the Sub1 firmware OID: appended to the main
firmware string when one is already present. -/
def maintFirmSubStep (o : Oracle) (st : PrinterStatus) : PrinterStatus :=
  match o.get maintFirmSubOID with
  | some (.octets value) =>
    if goContains value "FIRMVER=" then
      let parts := goSplit value "="
      if parts.length > 1 ∧ st.firmwareVersion ≠ "" then
        { st with firmwareVersion :=
            st.firmwareVersion ++ " / Sub1: " ++ trimQuotes (parts.getD 1 "") }
      else st
    else st
  | _ => st

/-- The device-class status enumeration used by the maintenance probe
(1=unknown, 2=running, 3=warning, 4=testing, 5=down, otherwise
`fmt.Sprintf("Status %d", code)`). -/
def deviceClassText (code : Int) : String :=
  if code = 1 then "Unknown"
  else if code = 2 then "Running"
  else if code = 3 then "Warning"
  else if code = 4 then "Testing"
  else if code = 5 then "Down"
  else "Status " ++ toString code

/-- Maintenance-probe step reading `1.3.6.1.2.1.25.3.5.1.1.1` and writing
the `Status` field through the device-class enumeration. -/
def maintStatusStep (o : Oracle) (st : PrinterStatus) : PrinterStatus :=
  match o.get hrPrinterStatusOID with
  | some (.int code) => { st with status := deviceClassText code }
  | _ => st

/-- Maintenance-probe step for the standard page counter OID: a Counter32
value is stored in `TotalPages` unconditionally (no positivity check). -/
def maintPageStep (o : Oracle) (st : PrinterStatus) : PrinterStatus :=
  match o.get stdPageOID with
  | some (.counter32 c) => { st with totalPages := c.toGoInt }
  | _ => st

/-- Maintenance-probe step for the Brother paper-jam counter. -/
def maintJamsStep (o : Oracle) (st : PrinterStatus) : PrinterStatus :=
  match o.get brotherJamsOID with
  | some (.int n) => { st with totalPaperJams := n }
  | some (.counter32 c) => { st with totalPaperJams := c.toGoInt }
  | _ => st

/-- `getBrotherMaintenanceInfo` from client.go (loop over its OID list,
unrolled in list order).  The loop also fetches the Sub1 firmware-ID OID
(`…2.8`) and sysUpTime, for which the switch has no case and hence no
state effect; those two no-op reads are omitted. -/
def getBrotherMaintenanceInfo (o : Oracle) (st : PrinterStatus) : PrinterStatus :=
  maintJamsStep o (maintPageStep o (maintStatusStep o (maintFirmSubStep o
    (maintFirmMainStep o (maintSysNameStep o (maintSerialStep o
      (maintModelStep o st)))))))

/-- Identity step for sysDescr: stored unconditionally. -/
def idSysDescrStep (o : Oracle) (st : PrinterStatus) : PrinterStatus :=
  match o.get sysDescrOID with
  | some (.octets value) => { st with systemDescription := value }
  | _ => st

/-- Identity step for sysName: stored unconditionally in `DeviceName`. -/
def idSysNameStep (o : Oracle) (st : PrinterStatus) : PrinterStatus :=
  match o.get sysNameOID with
  | some (.octets value) => { st with deviceName := value }
  | _ => st

/-- Identity step for prtGeneralPrinterName: stored only when non-empty. -/
def idPrinterNameStep (o : Oracle) (st : PrinterStatus) : PrinterStatus :=
  match o.get prtNameOID with
  | some (.octets value) =>
    if value ≠ "" then { st with printerName := value } else st
  | _ => st

/-- `getDeviceIdentity` from client.go (loop over its three OIDs,
unrolled). -/
def getDeviceIdentity (o : Oracle) (st : PrinterStatus) : PrinterStatus :=
  idPrinterNameStep o (idSysNameStep o (idSysDescrStep o st))

/-- The prtGeneralPrinterStatus enumeration used by `getDeviceStatus`
(0=idle, 3=idle, 4=printing, 5=warmup, otherwise
`fmt.Sprintf("Status %d", code)`). -/
def generalStatusText (code : Int) : String :=
  if code = 0 then "Idle"
  else if code = 3 then "Idle"
  else if code = 4 then "Printing"
  else if code = 5 then "Warmup"
  else "Status " ++ toString code

/-- Device-status step for prtGeneralPrinterStatus: writes `Status`. -/
def dsGenStatusStep (o : Oracle) (st : PrinterStatus) : PrinterStatus :=
  match o.get prtGeneralStatusOID with
  | some (.int code) => { st with status := generalStatusText code }
  | _ => st

/-- Device-status step for sysUpTime (TimeTicks). -/
def dsUptimeStep (o : Oracle) (st : PrinterStatus) : PrinterStatus :=
  match o.get sysUpTimeOID with
  | some (.ticks n) => { st with uptime := n }
  | _ => st

/-- Device-status step for `1.3.6.1.2.1.25.3.5.1.1.1`, stored raw in
`DeviceStatus`. -/
def dsHrDeviceStep (o : Oracle) (st : PrinterStatus) : PrinterStatus :=
  match o.get hrPrinterStatusOID with
  | some (.int v) => { st with deviceStatus := v }
  | _ => st

/-- `getDeviceStatus` from client.go (loop over its three OIDs,
unrolled). -/
def getDeviceStatus (o : Oracle) (st : PrinterStatus) : PrinterStatus :=
  dsHrDeviceStep o (dsUptimeStep o (dsGenStatusStep o st))

/-- Page-counter step for prtMarkerLifeCount: a Counter32 value is stored
unconditionally. -/
def pcLifeStep (o : Oracle) (st : PrinterStatus) : PrinterStatus :=
  match o.get stdPageOID with
  | some (.counter32 c) => { st with totalPages := c.toGoInt }
  | _ => st

/-- Page-counter step for prtMarkerCounterUnit. -/
def pcUnitStep (o : Oracle) (st : PrinterStatus) : PrinterStatus :=
  match o.get counterUnitOID with
  | some (.int v) => { st with pageCounterUnit := v }
  | _ => st

/-- `getPageCounters` from client.go (loop over its two OIDs, unrolled). -/
def getPageCounters (o : Oracle) (st : PrinterStatus) : PrinterStatus :=
  pcUnitStep o (pcLifeStep o st)

/-- One accumulated row of the prtMarkerSuppliesTable walk (the inner
`map[string]interface{}` of `suppliesData`): fields absent until the walk
stores them. -/
structure SupplyRow where
  supplyClass : Option Int := none
  description : Option String := none
  maxCapacity : Option Int := none
  currentLevel : Option Int := none
deriving DecidableEq, Repr

/-- Keyed, insertion-ordered accumulator update: modify the row at `idx`
in place, or append a fresh row if the key is new (`suppliesData[index]`
/ `trayData[index]` creation plus field store). -/
def updateRowAt {α : Type} (default : α) (acc : List (String × α)) (idx : String)
    (f : α → α) : List (String × α) :=
  if (acc.find? fun p => p.1 = idx).isSome then
    acc.map fun p => if p.1 = idx then (p.1, f p.2) else p
  else acc ++ [(idx, f default)]

/-- Association-list lookup by key. -/
def lookupRow {α : Type} (k : String) (acc : List (String × α)) : Option α :=
  (acc.find? fun p => p.1 = k).map Prod.snd

/-- The OID-suffix decomposition both walks perform:
`parts := strings.Split(oid, ".")`; with at least four parts, `subOID`
is the third-from-last part and the composite row index is the last two
parts joined with a dot. -/
def oidSuffix (oid : String) : Option (String × String) :=
  let parts := goSplit oid "."
  if parts.length ≥ 4 then
    some (parts.getD (parts.length - 3) "",
      parts.getD (parts.length - 2) "" ++ "." ++ parts.getD (parts.length - 1) "")
  else none

/-- The field store performed by one supplies-walk callback: the Go
switch on the sub-OID stores class / description / max capacity /
current level when the variable has the checked type, and nothing
otherwise. -/
def supplyFieldUpdate (subOID : String) (v : SnmpValue) : SupplyRow → SupplyRow :=
  if subOID = "5" then
    match v with
    | .int n => fun r => { r with supplyClass := some n }
    | _ => id
  else if subOID = "6" then
    match v with
    | .octets s => fun r => { r with description := some s }
    | _ => id
  else if subOID = "8" then
    match v with
    | .int n => fun r => { r with maxCapacity := some n }
    | _ => id
  else if subOID = "9" then
    match v with
    | .int n => fun r => { r with currentLevel := some n }
    | _ => id
  else id

/-- One callback of the supplies walk: for any decomposable OID the row is
created if absent (the Go code initialises `suppliesData[index]` before
the switch, for every sub-OID), then the switch stores the field. -/
def supplyStep (acc : List (String × SupplyRow)) (e : String × SnmpValue) :
    List (String × SupplyRow) :=
  match oidSuffix e.1 with
  | none => acc
  | some (subOID, index) => updateRowAt {} acc index (supplyFieldUpdate subOID e.2)

/-- The supplies-walk accumulator after visiting `entries` in order. -/
def accumSupplies (entries : List (String × SnmpValue)) :
    List (String × SupplyRow) :=
  entries.foldl supplyStep []

/-- The toner sentinel handling of `getTonerLevels`: a current level of
−2 or −3 sets the toner level to the −1 "unknown" sentinel, anything
else leaves it. -/
def applySentinel (level tl : Int) : Int :=
  if level = -2 then -1 else if level = -3 then -1 else tl

/-- The post-walk scan of `getTonerLevels`: iterate the accumulated rows
in map-iteration order; on the first class-3 (toner) row with both
capacity fields present, max capacity > 0 and current level ≥ 0, return
`(level*100)/maxCapacity` (Go truncating integer division) and stop;
otherwise apply the sentinel handling and continue.  `tl` is the toner
level carried so far. -/
def scanToner (acc : List (String × SupplyRow)) : List String → Int → Int
  | [], tl => tl
  | k :: rest, tl =>
    match lookupRow k acc with
    | none => scanToner acc rest tl
    | some d =>
      if d.supplyClass = some 3 then
        match d.maxCapacity, d.currentLevel with
        | some maxCap, some curr =>
          if maxCap > 0 ∧ curr ≥ 0 then Int.tdiv (curr * 100) maxCap
          else scanToner acc rest (applySentinel curr tl)
        | none, some curr => scanToner acc rest (applySentinel curr tl)
        | _, none => scanToner acc rest tl
      else scanToner acc rest tl

/-- `getTonerLevels` from client.go: walk the supplies table (skipping
everything if the walk fails), then scan the accumulated rows for the
toner class. -/
def getTonerLevels (o : Oracle) (st : PrinterStatus) : PrinterStatus :=
  match o.walks supplyBaseOID with
  | none => st
  | some entries =>
    { st with tonerLevel :=
        scanToner (accumSupplies entries) o.supplyOrder st.tonerLevel }

/-- A supplies row qualifies for the percentage computation when it is
tagged with the toner class (3), both capacity fields were seen, the max
capacity is positive and the current level non-negative. -/
def qualRow (r : SupplyRow) : Bool :=
  decide (r.supplyClass = some 3) &&
    (match r.maxCapacity, r.currentLevel with
     | some m, some l => decide (m > 0) && decide (l ≥ 0)
     | _, _ => false)

/-- The percentage a qualifying row yields: `(level*100)/maxCapacity`
with Go truncating division. -/
def rowPct (r : SupplyRow) : Int :=
  match r.maxCapacity, r.currentLevel with
  | some m, some l => Int.tdiv (l * 100) m
  | _, _ => 0

/-- A toner row carrying one of the device sentinels −2 / −3 as its
current level. -/
def sentinelRow (r : SupplyRow) : Bool :=
  decide (r.supplyClass = some 3) &&
    (decide (r.currentLevel = some (-2)) || decide (r.currentLevel = some (-3)))

/-- Whether the scan order visits some sentinel row of the accumulator. -/
def hasSentinel (acc : List (String × SupplyRow)) (order : List String) : Bool :=
  order.any fun j =>
    match lookupRow j acc with
    | some r => sentinelRow r
    | none => false

/-- The alert-walk callback body: decode the value (octet string as-is,
integer via `%d`, otherwise `%v`), and keep `"oid: value"` when the
decoded value is neither `"0"` nor empty. -/
def keptAlerts (entries : List (String × SnmpValue)) : List String :=
  entries.foldl
    (fun acc e =>
      let valueStr := e.2.renderV
      if valueStr ≠ "0" ∧ valueStr ≠ "" then acc ++ [e.1 ++ ": " ++ valueStr]
      else acc)
    []

/-- Specification-side form of the kept alert list: the visited entries
whose decoded value is neither `"0"` nor empty, in visit order, each
rendered as `"oid: value"`. -/
def specKeptAlerts (entries : List (String × SnmpValue)) : List String :=
  (entries.filter fun e => decide (e.2.renderV ≠ "0" ∧ e.2.renderV ≠ "")).map
    fun e => e.1 ++ ": " ++ e.2.renderV

/-- `getAlertsAndErrors` from client.go: `ActiveAlerts` is reset to an
empty (non-nil) slice before the walk; on a successful walk the kept
entries are stored, the error count becomes their number and, when any
were kept, the last error becomes the first kept entry. -/
def getAlertsAndErrors (o : Oracle) (st : PrinterStatus) : PrinterStatus :=
  let st := { st with activeAlerts := some [] }
  match o.walks alertBaseOID with
  | none => st
  | some entries =>
    let kept := keptAlerts entries
    let st := { st with activeAlerts := some kept,
                        errorCount := (kept.length : Int) }
    if kept.length > 0 then { st with lastError := kept.getD 0 "" } else st

/-- One accumulated row of the prtInputTable walk. -/
structure TrayRow where
  name : Option String := none
  statusCode : Option Int := none
  capacity : Option Int := none
deriving DecidableEq, Repr

/-- The field store performed by one tray-walk callback (name / status /
capacity sub-OIDs, with the Go type checks). -/
def trayFieldUpdate (subOID : String) (v : SnmpValue) : TrayRow → TrayRow :=
  if subOID = "13" then
    match v with
    | .octets s => fun r => { r with name := some s }
    | _ => id
  else if subOID = "18" then
    match v with
    | .int n => fun r => { r with statusCode := some n }
    | _ => id
  else if subOID = "9" then
    match v with
    | .int n => fun r => { r with capacity := some n }
    | _ => id
  else id

/-- One callback of the tray walk: the row is created for every sub-OID
(as in the supplies walk), then the switch stores the field. -/
def trayStep (acc : List (String × TrayRow)) (e : String × SnmpValue) :
    List (String × TrayRow) :=
  match oidSuffix e.1 with
  | none => acc
  | some (subOID, index) => updateRowAt {} acc index (trayFieldUpdate subOID e.2)

/-- The tray-walk accumulator after visiting `entries` in order. -/
def accumTrays (entries : List (String × SnmpValue)) : List (String × TrayRow) :=
  entries.foldl trayStep []

/-- The post-walk emission test of `getPaperTrays`: a row yields a tray
record when it has a non-empty name and a status code was seen; capacity
defaults to 0; the emitted `Index` is the constant 1 the source uses. -/
def qualTray (r : TrayRow) : Option PaperTray :=
  match r.name, r.statusCode with
  | some n, some s =>
    if n ≠ "" then
      some { index := 1, name := n, status := s, capacity := r.capacity.getD 0 }
    else none
  | _, _ => none

/-- The post-walk emission loop of `getPaperTrays`, ranging over the
accumulator in map-iteration order `order`. -/
def emitTrays (acc : List (String × TrayRow)) (order : List String) :
    List PaperTray :=
  order.foldl
    (fun out k =>
      match lookupRow k acc with
      | some r =>
        match qualTray r with
        | some t => out ++ [t]
        | none => out
      | none => out)
    []

/-- `getPaperTrays` from client.go: `PaperTrays` is reset to an empty
(non-nil) slice before the walk; on a successful walk the qualifying
rows are emitted in map-iteration order. -/
def getPaperTrays (o : Oracle) (st : PrinterStatus) : PrinterStatus :=
  let st := { st with paperTrays := some [] }
  match o.walks trayBaseOID with
  | none => st
  | some entries =>
    { st with paperTrays := some (emitTrays (accumTrays entries) o.trayOrder) }

/-- The probe pipeline `Poll` runs after a successful connection, in
source order. -/
def runProbes (o : Oracle) (st : PrinterStatus) : PrinterStatus :=
  getPaperTrays o (getAlertsAndErrors o (getPageCounters o (getDeviceStatus o
    (getDeviceIdentity o (getBrotherMaintenanceInfo o (getErrorInfo o
      (getPageCounts o (getTonerLevels o (getStandardPrinterStatus o
        (getBrotherInfo o st))))))))))

/-- `Poll` from client.go: on connection failure return the wrapped error
and run no probe; otherwise run every probe against the connection and
return the record. -/
def Poll (o : Oracle) (host : String) : Except String PrinterStatus :=
  if o.connOk then Except.ok (runProbes o (initStatus host))
  else Except.error ("failed to connect to " ++ host)

/-- The drum lines of the `String` rendering method (client.go 602-605):
the drum percentage is computed here, at render time, from the raw
`DrumLevel`/`DrumMaxCapacity` fields, with Go truncating division. -/
def renderDrumLine (p : PrinterStatus) : String :=
  if p.drumLevel > 0 ∧ p.drumMaxCapacity > 0 then
    "   Drum Level: " ++ toString (Int.tdiv (p.drumLevel * 100) p.drumMaxCapacity)
      ++ "% (" ++ toString p.drumLevel ++ "/" ++ toString p.drumMaxCapacity
      ++ ")\n"
  else ""

/-- A Go buffered channel carrying jobs, as used by the scheduler:
`close` marks it closed; a send on a closed channel is a runtime panic. -/
structure GoChan (α : Type) where
  capacity : Nat
  buffer : List α
  closed : Bool
deriving Repr

/-- Result of a Go channel send: either the updated channel, or the
runtime panic raised by sending on a closed channel.  (Blocking on a
full buffer always eventually completes in this sequential model and is
not distinguished.) -/
inductive SendResult (α : Type) where
  | sent (c : GoChan α)
  | panicked
deriving Repr

/-- Go channel send semantics. -/
def chanSend {α : Type} (c : GoChan α) (x : α) : SendResult α :=
  if c.closed then .panicked
  else .sent { c with buffer := c.buffer ++ [x] }

/-- The `Scheduler` struct from the scheduler package.  Jobs are opaque
and modelled as `Nat` tags; `pending` is the `sync.WaitGroup` counter.
Worker goroutines consume the queue concurrently and are not part of
this sequential submit-side model. -/
structure Scheduler where
  workers : Nat
  jobQueue : GoChan Nat
  started : Bool
  pending : Nat
deriving Repr

/-- `New` from the scheduler package: a queue buffered at twice the
worker count, not yet started. -/
def SchedulerNew (workers : Nat) : Scheduler :=
  { workers := workers,
    jobQueue := { capacity := workers * 2, buffer := [], closed := false },
    started := false,
    pending := 0 }

/-- Outcome of a `Submit` call: the updated scheduler, or a runtime
panic. -/
inductive SubmitResult where
  | ok (s : Scheduler)
  | panicked
deriving Repr

/-- `Submit` from the scheduler package: lazily start the workers on the
first call, increment the wait-group counter, then send the wrapped job
on `jobQueue` — with no check whether the queue has been closed, so the
send panics after `Close`. -/
def Scheduler.Submit (s : Scheduler) (job : Nat) : SubmitResult :=
  let s := if s.started then s else { s with started := true }
  let s := { s with pending := s.pending + 1 }
  match chanSend s.jobQueue job with
  | .sent c => .ok { s with jobQueue := c }
  | .panicked => .panicked

/-- `Close` from the scheduler package: `close(s.jobQueue)`. -/
def Scheduler.Close (s : Scheduler) : Scheduler :=
  { s with jobQueue := { s.jobQueue with closed := true } }

/-! Concrete device behaviours used to evaluate the probes on explicit
inputs. -/

/-- Build a scalar-read oracle function from an association list. -/
def mkGet (l : List (String × SnmpValue)) : String → Option SnmpValue :=
  fun oid => (l.find? fun p => p.1 = oid).map Prod.snd

/-- A device that accepts the connection but answers no scalar read and
fails every walk: every individual probe fails. -/
def allFailOracle : Oracle :=
  { get := fun _ => none, walks := fun _ => none,
    supplyOrder := [], trayOrder := [], connOk := true }

/-- A device whose connection handshake fails. -/
def noConnOracle : Oracle :=
  { get := fun _ => none, walks := fun _ => none,
    supplyOrder := [], trayOrder := [], connOk := false }

/-- The record `Poll` returns for a device that connects but fails every
probe: every field keeps its initial value except the two slices the
walk probes unconditionally reset to empty non-nil slices. -/
def defaultRecord (host : String) : PrinterStatus :=
  { host := host, status := "unknown",
    activeAlerts := some [], paperTrays := some [] }

/-- A device whose first strictly-positive page-count candidate is the
vendor OID delivered as a Counter32 (value 7), followed by the
vendor-alternate OID delivered as an Integer (value 3). -/
def pageBreakOracle : Oracle :=
  { get := mkGet [(brotherPageOID, .counter32 (.u32 7)), (brotherPageAltOID, .int 3)],
    walks := fun _ => none, supplyOrder := [], trayOrder := [], connOk := true }

/-- A device on which all three status sources respond: the shared OID
`1.3.6.1.2.1.25.3.5.1.1.1` answers 2 (generic enumeration: "unknown";
device-class enumeration: "Running") and prtGeneralPrinterStatus answers
4 ("Printing"). -/
def statusOrderOracle : Oracle :=
  { get := mkGet [(hrPrinterStatusOID, .int 2), (prtGeneralStatusOID, .int 4)],
    walks := fun _ => none, supplyOrder := [], trayOrder := [], connOk := true }

/-- A device on which only the shared device-class status OID responds
(value 2, device-class enumeration "Running") and the
prtGeneralPrinterStatus source does not. -/
def devClassOracle : Oracle :=
  { get := mkGet [(hrPrinterStatusOID, .int 2)],
    walks := fun _ => none, supplyOrder := [], trayOrder := [], connOk := true }

/-- A device whose capability descriptor carries a model under `MDL:`
while the later maintenance model OID answers the literal `MODEL=`,
whose extracted value is empty. -/
def modelResetOracle : Oracle :=
  { get := mkGet [(brotherCapOID, .octets "MFG:Brother;MDL:HL-2270DW;CMD:PJL;"),
                  (maintModelOID, .octets "MODEL=")],
    walks := fun _ => none, supplyOrder := [], trayOrder := [], connOk := true }

/-- A supplies walk carrying two qualifying toner rows (indices `1.1`
with level 40/100 and `1.2` with level 80/100) and one drum-class row
(type 9, index `1.3`, level 50/100). -/
def tonerWalkEntries : List (String × SnmpValue) :=
  [(".1.3.6.1.2.1.43.11.1.1.5.1.1", .int 3),
   (".1.3.6.1.2.1.43.11.1.1.5.1.2", .int 3),
   (".1.3.6.1.2.1.43.11.1.1.5.1.3", .int 9),
   (".1.3.6.1.2.1.43.11.1.1.8.1.1", .int 100),
   (".1.3.6.1.2.1.43.11.1.1.8.1.2", .int 100),
   (".1.3.6.1.2.1.43.11.1.1.8.1.3", .int 100),
   (".1.3.6.1.2.1.43.11.1.1.9.1.1", .int 40),
   (".1.3.6.1.2.1.43.11.1.1.9.1.2", .int 80),
   (".1.3.6.1.2.1.43.11.1.1.9.1.3", .int 50)]

/-- The toner device with a map iteration order that visits row `1.2`
before the first-accumulated row `1.1` (a legal Go map order). -/
def tonerScanOracle : Oracle :=
  { get := fun _ => none,
    walks := fun b => if b = supplyBaseOID then some tonerWalkEntries else none,
    supplyOrder := ["1.2", "1.1", "1.3"], trayOrder := [], connOk := true }

/-- The same toner device with the map iteration order matching
first-accumulation order. -/
def tonerScanOracleW : Oracle :=
  { get := fun _ => none,
    walks := fun b => if b = supplyBaseOID then some tonerWalkEntries else none,
    supplyOrder := ["1.1", "1.2", "1.3"], trayOrder := [], connOk := true }

/-- A supplies walk whose only toner row has no capacity data and the
−2 device sentinel as its current level. -/
def tonerSentinelEntries : List (String × SnmpValue) :=
  [(".1.3.6.1.2.1.43.11.1.1.5.1.1", .int 3),
   (".1.3.6.1.2.1.43.11.1.1.9.1.1", .int (-2))]

/-- The device carrying only the sentinel toner row. -/
def tonerSentinelOracle : Oracle :=
  { get := fun _ => none,
    walks := fun b => if b = supplyBaseOID then some tonerSentinelEntries else none,
    supplyOrder := ["1.1"], trayOrder := [], connOk := true }

/-- An alert walk visiting the decoded values `"0"`, `"2"`, `"0"`,
`"paper jam"` at OIDs `a`, `b`, `c`, `d`. -/
def alertWalkEntries : List (String × SnmpValue) :=
  [("a", .octets "0"), ("b", .octets "2"), ("c", .octets "0"),
   ("d", .octets "paper jam")]

/-- The device serving that alert walk. -/
def alertOracle : Oracle :=
  { get := fun _ => none,
    walks := fun b => if b = alertBaseOID then some alertWalkEntries else none,
    supplyOrder := [], trayOrder := [], connOk := true }

/-- A tray walk accumulating two qualifying trays, `1.1` ("Tray 1",
status 5, capacity 250) first and `1.2` ("Tray 2", status 4, capacity
never seen) second. -/
def trayWalkEntries : List (String × SnmpValue) :=
  [(".1.3.6.1.2.1.43.8.2.1.13.1.1", .octets "Tray 1"),
   (".1.3.6.1.2.1.43.8.2.1.13.1.2", .octets "Tray 2"),
   (".1.3.6.1.2.1.43.8.2.1.18.1.1", .int 5),
   (".1.3.6.1.2.1.43.8.2.1.18.1.2", .int 4),
   (".1.3.6.1.2.1.43.8.2.1.9.1.1", .int 250)]

/-- The tray device with a map iteration order that visits `1.2` before
the first-seen index `1.1` (a legal Go map order). -/
def trayOrderOracle : Oracle :=
  { get := fun _ => none,
    walks := fun b => if b = trayBaseOID then some trayWalkEntries else none,
    supplyOrder := [], trayOrder := ["1.2", "1.1"], connOk := true }

/-! Helper lemmas: non-emptiness of the status vocabulary, and frame
lemmas describing which `PrinterStatus` fields each probe step leaves
untouched. -/

theorem parsePrinterStatus_ne (v : Int) : parsePrinterStatus v ≠ "" := by
  unfold parsePrinterStatus
  split_ifs <;> decide

theorem statusPrefix_ne (x : String) : "Status " ++ x ≠ "" := by
  intro h
  have hlen := congrArg String.length h
  rw [String.length_append] at hlen
  have h7 : "Status ".length = 7 := by decide
  have h0 : "".length = 0 := rfl
  omega

theorem deviceClassText_ne (v : Int) : deviceClassText v ≠ "" := by
  unfold deviceClassText
  split_ifs <;> first | decide | exact statusPrefix_ne _

theorem generalStatusText_ne (v : Int) : generalStatusText v ≠ "" := by
  unfold generalStatusText
  split_ifs <;> first | decide | exact statusPrefix_ne _

theorem getBrotherInfo_frame (o : Oracle) (st : PrinterStatus) :
    (getBrotherInfo o st).host = st.host ∧
    (getBrotherInfo o st).drumLevel = st.drumLevel ∧
    (getBrotherInfo o st).drumMaxCapacity = st.drumMaxCapacity ∧
    (getBrotherInfo o st).status = st.status ∧
    (getBrotherInfo o st).activeAlerts = st.activeAlerts := by
  unfold getBrotherInfo
  cases h : o.get brotherCapOID with
  | none => exact ⟨rfl, rfl, rfl, rfl, rfl⟩
  | some v =>
    cases v <;> dsimp only <;> try exact ⟨rfl, rfl, rfl, rfl, rfl⟩
    split_ifs <;> exact ⟨rfl, rfl, rfl, rfl, rfl⟩

theorem hrStatusStep_frame (o : Oracle) (st : PrinterStatus) :
    (hrStatusStep o st).host = st.host ∧
    (hrStatusStep o st).drumLevel = st.drumLevel ∧
    (hrStatusStep o st).drumMaxCapacity = st.drumMaxCapacity ∧
    (hrStatusStep o st).model = st.model ∧
    (hrStatusStep o st).activeAlerts = st.activeAlerts := by
  unfold hrStatusStep
  cases h : o.get hrPrinterStatusOID with
  | none => exact ⟨rfl, rfl, rfl, rfl, rfl⟩
  | some v => cases v <;> exact ⟨rfl, rfl, rfl, rfl, rfl⟩

theorem hrStatusStep_status_ne (o : Oracle) (st : PrinterStatus)
    (h : st.status ≠ "") : (hrStatusStep o st).status ≠ "" := by
  unfold hrStatusStep
  cases hv : o.get hrPrinterStatusOID with
  | none => exact h
  | some v => cases v <;> first | exact h | exact parsePrinterStatus_ne _

theorem errStateStep_frame (o : Oracle) (st : PrinterStatus) :
    (errStateStep o st).host = st.host ∧
    (errStateStep o st).drumLevel = st.drumLevel ∧
    (errStateStep o st).drumMaxCapacity = st.drumMaxCapacity ∧
    (errStateStep o st).status = st.status ∧
    (errStateStep o st).model = st.model ∧
    (errStateStep o st).activeAlerts = st.activeAlerts := by
  unfold errStateStep
  cases h : o.get hrDetectedErrorOID with
  | none => exact ⟨rfl, rfl, rfl, rfl, rfl, rfl⟩
  | some v => cases v <;> exact ⟨rfl, rfl, rfl, rfl, rfl, rfl⟩

theorem getTonerLevels_frame (o : Oracle) (st : PrinterStatus) :
    (getTonerLevels o st).host = st.host ∧
    (getTonerLevels o st).drumLevel = st.drumLevel ∧
    (getTonerLevels o st).drumMaxCapacity = st.drumMaxCapacity ∧
    (getTonerLevels o st).status = st.status ∧
    (getTonerLevels o st).model = st.model ∧
    (getTonerLevels o st).activeAlerts = st.activeAlerts := by
  unfold getTonerLevels
  cases h : o.walks supplyBaseOID with
  | none => exact ⟨rfl, rfl, rfl, rfl, rfl, rfl⟩
  | some entries => exact ⟨rfl, rfl, rfl, rfl, rfl, rfl⟩

theorem pcStep_frame (o : Oracle) (oid : String) (s : PrinterStatus × Bool) :
    ((pcStep o oid s).1).host = s.1.host ∧
    ((pcStep o oid s).1).drumLevel = s.1.drumLevel ∧
    ((pcStep o oid s).1).drumMaxCapacity = s.1.drumMaxCapacity ∧
    ((pcStep o oid s).1).status = s.1.status ∧
    ((pcStep o oid s).1).model = s.1.model ∧
    ((pcStep o oid s).1).activeAlerts = s.1.activeAlerts := by
  unfold pcStep
  split_ifs with hb
  · exact ⟨rfl, rfl, rfl, rfl, rfl, rfl⟩
  · cases h : o.get oid with
    | none => exact ⟨rfl, rfl, rfl, rfl, rfl, rfl⟩
    | some v =>
      cases v <;> dsimp only <;> try exact ⟨rfl, rfl, rfl, rfl, rfl, rfl⟩
      all_goals split_ifs <;> exact ⟨rfl, rfl, rfl, rfl, rfl, rfl⟩

theorem errInfoStep_frame (o : Oracle) (oid : String) (st : PrinterStatus) :
    (errInfoStep o oid st).host = st.host ∧
    (errInfoStep o oid st).drumLevel = st.drumLevel ∧
    (errInfoStep o oid st).drumMaxCapacity = st.drumMaxCapacity ∧
    (errInfoStep o oid st).status = st.status ∧
    (errInfoStep o oid st).model = st.model ∧
    (errInfoStep o oid st).activeAlerts = st.activeAlerts := by
  unfold errInfoStep
  cases h : o.get oid with
  | none => exact ⟨rfl, rfl, rfl, rfl, rfl, rfl⟩
  | some v =>
    cases v <;> dsimp only <;> try exact ⟨rfl, rfl, rfl, rfl, rfl, rfl⟩
    all_goals split_ifs <;> exact ⟨rfl, rfl, rfl, rfl, rfl, rfl⟩

theorem maintModelStep_frame (o : Oracle) (st : PrinterStatus) :
    (maintModelStep o st).host = st.host ∧
    (maintModelStep o st).drumLevel = st.drumLevel ∧
    (maintModelStep o st).drumMaxCapacity = st.drumMaxCapacity ∧
    (maintModelStep o st).status = st.status ∧
    (maintModelStep o st).activeAlerts = st.activeAlerts := by
  unfold maintModelStep
  cases h : o.get maintModelOID with
  | none => exact ⟨rfl, rfl, rfl, rfl, rfl⟩
  | some v =>
    cases v <;> dsimp only <;> try exact ⟨rfl, rfl, rfl, rfl, rfl⟩
    split_ifs <;> exact ⟨rfl, rfl, rfl, rfl, rfl⟩

theorem maintSerialStep_frame (o : Oracle) (st : PrinterStatus) :
    (maintSerialStep o st).host = st.host ∧
    (maintSerialStep o st).drumLevel = st.drumLevel ∧
    (maintSerialStep o st).drumMaxCapacity = st.drumMaxCapacity ∧
    (maintSerialStep o st).status = st.status ∧
    (maintSerialStep o st).model = st.model ∧
    (maintSerialStep o st).activeAlerts = st.activeAlerts := by
  unfold maintSerialStep
  cases h : o.get maintSerialOID with
  | none => exact ⟨rfl, rfl, rfl, rfl, rfl, rfl⟩
  | some v =>
    cases v <;> dsimp only <;> try exact ⟨rfl, rfl, rfl, rfl, rfl, rfl⟩
    split_ifs <;> exact ⟨rfl, rfl, rfl, rfl, rfl, rfl⟩

theorem maintSysNameStep_frame (o : Oracle) (st : PrinterStatus) :
    (maintSysNameStep o st).host = st.host ∧
    (maintSysNameStep o st).drumLevel = st.drumLevel ∧
    (maintSysNameStep o st).drumMaxCapacity = st.drumMaxCapacity ∧
    (maintSysNameStep o st).status = st.status ∧
    (maintSysNameStep o st).model = st.model ∧
    (maintSysNameStep o st).activeAlerts = st.activeAlerts := by
  unfold maintSysNameStep
  cases h : o.get sysNameOID with
  | none => exact ⟨rfl, rfl, rfl, rfl, rfl, rfl⟩
  | some v =>
    cases v <;> dsimp only <;> try exact ⟨rfl, rfl, rfl, rfl, rfl, rfl⟩
    split_ifs <;> exact ⟨rfl, rfl, rfl, rfl, rfl, rfl⟩

theorem maintFirmMainStep_frame (o : Oracle) (st : PrinterStatus) :
    (maintFirmMainStep o st).host = st.host ∧
    (maintFirmMainStep o st).drumLevel = st.drumLevel ∧
    (maintFirmMainStep o st).drumMaxCapacity = st.drumMaxCapacity ∧
    (maintFirmMainStep o st).status = st.status ∧
    (maintFirmMainStep o st).model = st.model ∧
    (maintFirmMainStep o st).activeAlerts = st.activeAlerts := by
  unfold maintFirmMainStep
  cases h : o.get maintFirmMainOID with
  | none => exact ⟨rfl, rfl, rfl, rfl, rfl, rfl⟩
  | some v =>
    cases v <;> dsimp only <;> try exact ⟨rfl, rfl, rfl, rfl, rfl, rfl⟩
    split_ifs <;> exact ⟨rfl, rfl, rfl, rfl, rfl, rfl⟩

theorem maintFirmSubStep_frame (o : Oracle) (st : PrinterStatus) :
    (maintFirmSubStep o st).host = st.host ∧
    (maintFirmSubStep o st).drumLevel = st.drumLevel ∧
    (maintFirmSubStep o st).drumMaxCapacity = st.drumMaxCapacity ∧
    (maintFirmSubStep o st).status = st.status ∧
    (maintFirmSubStep o st).model = st.model ∧
    (maintFirmSubStep o st).activeAlerts = st.activeAlerts := by
  unfold maintFirmSubStep
  cases h : o.get maintFirmSubOID with
  | none => exact ⟨rfl, rfl, rfl, rfl, rfl, rfl⟩
  | some v =>
    cases v <;> dsimp only <;> try exact ⟨rfl, rfl, rfl, rfl, rfl, rfl⟩
    split_ifs <;> exact ⟨rfl, rfl, rfl, rfl, rfl, rfl⟩

theorem maintStatusStep_frame (o : Oracle) (st : PrinterStatus) :
    (maintStatusStep o st).host = st.host ∧
    (maintStatusStep o st).drumLevel = st.drumLevel ∧
    (maintStatusStep o st).drumMaxCapacity = st.drumMaxCapacity ∧
    (maintStatusStep o st).model = st.model ∧
    (maintStatusStep o st).activeAlerts = st.activeAlerts := by
  unfold maintStatusStep
  cases h : o.get hrPrinterStatusOID with
  | none => exact ⟨rfl, rfl, rfl, rfl, rfl⟩
  | some v => cases v <;> exact ⟨rfl, rfl, rfl, rfl, rfl⟩

theorem maintStatusStep_status_ne (o : Oracle) (st : PrinterStatus)
    (h : st.status ≠ "") : (maintStatusStep o st).status ≠ "" := by
  unfold maintStatusStep
  cases hv : o.get hrPrinterStatusOID with
  | none => exact h
  | some v => cases v <;> first | exact h | exact deviceClassText_ne _

theorem maintPageStep_frame (o : Oracle) (st : PrinterStatus) :
    (maintPageStep o st).host = st.host ∧
    (maintPageStep o st).drumLevel = st.drumLevel ∧
    (maintPageStep o st).drumMaxCapacity = st.drumMaxCapacity ∧
    (maintPageStep o st).status = st.status ∧
    (maintPageStep o st).model = st.model ∧
    (maintPageStep o st).activeAlerts = st.activeAlerts := by
  unfold maintPageStep
  cases h : o.get stdPageOID with
  | none => exact ⟨rfl, rfl, rfl, rfl, rfl, rfl⟩
  | some v => cases v <;> exact ⟨rfl, rfl, rfl, rfl, rfl, rfl⟩

theorem maintJamsStep_frame (o : Oracle) (st : PrinterStatus) :
    (maintJamsStep o st).host = st.host ∧
    (maintJamsStep o st).drumLevel = st.drumLevel ∧
    (maintJamsStep o st).drumMaxCapacity = st.drumMaxCapacity ∧
    (maintJamsStep o st).status = st.status ∧
    (maintJamsStep o st).model = st.model ∧
    (maintJamsStep o st).activeAlerts = st.activeAlerts := by
  unfold maintJamsStep
  cases h : o.get brotherJamsOID with
  | none => exact ⟨rfl, rfl, rfl, rfl, rfl, rfl⟩
  | some v => cases v <;> exact ⟨rfl, rfl, rfl, rfl, rfl, rfl⟩

theorem idSysDescrStep_frame (o : Oracle) (st : PrinterStatus) :
    (idSysDescrStep o st).host = st.host ∧
    (idSysDescrStep o st).drumLevel = st.drumLevel ∧
    (idSysDescrStep o st).drumMaxCapacity = st.drumMaxCapacity ∧
    (idSysDescrStep o st).status = st.status ∧
    (idSysDescrStep o st).model = st.model ∧
    (idSysDescrStep o st).activeAlerts = st.activeAlerts ∧
    (idSysDescrStep o st).printerName = st.printerName := by
  unfold idSysDescrStep
  cases h : o.get sysDescrOID with
  | none => exact ⟨rfl, rfl, rfl, rfl, rfl, rfl, rfl⟩
  | some v => cases v <;> exact ⟨rfl, rfl, rfl, rfl, rfl, rfl, rfl⟩

theorem idSysNameStep_frame (o : Oracle) (st : PrinterStatus) :
    (idSysNameStep o st).host = st.host ∧
    (idSysNameStep o st).drumLevel = st.drumLevel ∧
    (idSysNameStep o st).drumMaxCapacity = st.drumMaxCapacity ∧
    (idSysNameStep o st).status = st.status ∧
    (idSysNameStep o st).model = st.model ∧
    (idSysNameStep o st).activeAlerts = st.activeAlerts ∧
    (idSysNameStep o st).printerName = st.printerName := by
  unfold idSysNameStep
  cases h : o.get sysNameOID with
  | none => exact ⟨rfl, rfl, rfl, rfl, rfl, rfl, rfl⟩
  | some v => cases v <;> exact ⟨rfl, rfl, rfl, rfl, rfl, rfl, rfl⟩

theorem idPrinterNameStep_frame (o : Oracle) (st : PrinterStatus) :
    (idPrinterNameStep o st).host = st.host ∧
    (idPrinterNameStep o st).drumLevel = st.drumLevel ∧
    (idPrinterNameStep o st).drumMaxCapacity = st.drumMaxCapacity ∧
    (idPrinterNameStep o st).status = st.status ∧
    (idPrinterNameStep o st).model = st.model ∧
    (idPrinterNameStep o st).activeAlerts = st.activeAlerts := by
  unfold idPrinterNameStep
  cases h : o.get prtNameOID with
  | none => exact ⟨rfl, rfl, rfl, rfl, rfl, rfl⟩
  | some v =>
    cases v <;> dsimp only <;> try exact ⟨rfl, rfl, rfl, rfl, rfl, rfl⟩
    split_ifs <;> exact ⟨rfl, rfl, rfl, rfl, rfl, rfl⟩

theorem dsGenStatusStep_frame (o : Oracle) (st : PrinterStatus) :
    (dsGenStatusStep o st).host = st.host ∧
    (dsGenStatusStep o st).drumLevel = st.drumLevel ∧
    (dsGenStatusStep o st).drumMaxCapacity = st.drumMaxCapacity ∧
    (dsGenStatusStep o st).model = st.model ∧
    (dsGenStatusStep o st).activeAlerts = st.activeAlerts := by
  unfold dsGenStatusStep
  cases h : o.get prtGeneralStatusOID with
  | none => exact ⟨rfl, rfl, rfl, rfl, rfl⟩
  | some v => cases v <;> exact ⟨rfl, rfl, rfl, rfl, rfl⟩

theorem dsGenStatusStep_status_ne (o : Oracle) (st : PrinterStatus)
    (h : st.status ≠ "") : (dsGenStatusStep o st).status ≠ "" := by
  unfold dsGenStatusStep
  cases hv : o.get prtGeneralStatusOID with
  | none => exact h
  | some v => cases v <;> first | exact h | exact generalStatusText_ne _

theorem dsUptimeStep_frame (o : Oracle) (st : PrinterStatus) :
    (dsUptimeStep o st).host = st.host ∧
    (dsUptimeStep o st).drumLevel = st.drumLevel ∧
    (dsUptimeStep o st).drumMaxCapacity = st.drumMaxCapacity ∧
    (dsUptimeStep o st).status = st.status ∧
    (dsUptimeStep o st).model = st.model ∧
    (dsUptimeStep o st).activeAlerts = st.activeAlerts := by
  unfold dsUptimeStep
  cases h : o.get sysUpTimeOID with
  | none => exact ⟨rfl, rfl, rfl, rfl, rfl, rfl⟩
  | some v => cases v <;> exact ⟨rfl, rfl, rfl, rfl, rfl, rfl⟩

theorem dsHrDeviceStep_frame (o : Oracle) (st : PrinterStatus) :
    (dsHrDeviceStep o st).host = st.host ∧
    (dsHrDeviceStep o st).drumLevel = st.drumLevel ∧
    (dsHrDeviceStep o st).drumMaxCapacity = st.drumMaxCapacity ∧
    (dsHrDeviceStep o st).status = st.status ∧
    (dsHrDeviceStep o st).model = st.model ∧
    (dsHrDeviceStep o st).activeAlerts = st.activeAlerts := by
  unfold dsHrDeviceStep
  cases h : o.get hrPrinterStatusOID with
  | none => exact ⟨rfl, rfl, rfl, rfl, rfl, rfl⟩
  | some v => cases v <;> exact ⟨rfl, rfl, rfl, rfl, rfl, rfl⟩

theorem pcLifeStep_frame (o : Oracle) (st : PrinterStatus) :
    (pcLifeStep o st).host = st.host ∧
    (pcLifeStep o st).drumLevel = st.drumLevel ∧
    (pcLifeStep o st).drumMaxCapacity = st.drumMaxCapacity ∧
    (pcLifeStep o st).status = st.status ∧
    (pcLifeStep o st).model = st.model ∧
    (pcLifeStep o st).activeAlerts = st.activeAlerts := by
  unfold pcLifeStep
  cases h : o.get stdPageOID with
  | none => exact ⟨rfl, rfl, rfl, rfl, rfl, rfl⟩
  | some v => cases v <;> exact ⟨rfl, rfl, rfl, rfl, rfl, rfl⟩

theorem pcUnitStep_frame (o : Oracle) (st : PrinterStatus) :
    (pcUnitStep o st).host = st.host ∧
    (pcUnitStep o st).drumLevel = st.drumLevel ∧
    (pcUnitStep o st).drumMaxCapacity = st.drumMaxCapacity ∧
    (pcUnitStep o st).status = st.status ∧
    (pcUnitStep o st).model = st.model ∧
    (pcUnitStep o st).activeAlerts = st.activeAlerts := by
  unfold pcUnitStep
  cases h : o.get counterUnitOID with
  | none => exact ⟨rfl, rfl, rfl, rfl, rfl, rfl⟩
  | some v => cases v <;> exact ⟨rfl, rfl, rfl, rfl, rfl, rfl⟩

theorem getAlertsAndErrors_frame (o : Oracle) (st : PrinterStatus) :
    (getAlertsAndErrors o st).host = st.host ∧
    (getAlertsAndErrors o st).drumLevel = st.drumLevel ∧
    (getAlertsAndErrors o st).drumMaxCapacity = st.drumMaxCapacity ∧
    (getAlertsAndErrors o st).status = st.status ∧
    (getAlertsAndErrors o st).model = st.model := by
  unfold getAlertsAndErrors
  cases h : o.walks alertBaseOID with
  | none => exact ⟨rfl, rfl, rfl, rfl, rfl⟩
  | some entries =>
    dsimp only
    split_ifs <;> exact ⟨rfl, rfl, rfl, rfl, rfl⟩

theorem getAlertsAndErrors_alerts (o : Oracle) (st : PrinterStatus) :
    ∃ l, (getAlertsAndErrors o st).activeAlerts = some l := by
  unfold getAlertsAndErrors
  cases h : o.walks alertBaseOID with
  | none => exact ⟨[], rfl⟩
  | some entries =>
    dsimp only
    split_ifs <;> exact ⟨_, rfl⟩

theorem getPaperTrays_frame (o : Oracle) (st : PrinterStatus) :
    (getPaperTrays o st).host = st.host ∧
    (getPaperTrays o st).drumLevel = st.drumLevel ∧
    (getPaperTrays o st).drumMaxCapacity = st.drumMaxCapacity ∧
    (getPaperTrays o st).status = st.status ∧
    (getPaperTrays o st).model = st.model ∧
    (getPaperTrays o st).activeAlerts = st.activeAlerts := by
  unfold getPaperTrays
  cases h : o.walks trayBaseOID with
  | none => exact ⟨rfl, rfl, rfl, rfl, rfl, rfl⟩
  | some entries => exact ⟨rfl, rfl, rfl, rfl, rfl, rfl⟩

theorem getStandardPrinterStatus_frame (o : Oracle) (st : PrinterStatus) :
    (getStandardPrinterStatus o st).host = st.host ∧
    (getStandardPrinterStatus o st).drumLevel = st.drumLevel ∧
    (getStandardPrinterStatus o st).drumMaxCapacity = st.drumMaxCapacity ∧
    (getStandardPrinterStatus o st).model = st.model ∧
    (getStandardPrinterStatus o st).activeAlerts = st.activeAlerts := by
  unfold getStandardPrinterStatus
  exact ⟨by rw [(errStateStep_frame _ _).1, (hrStatusStep_frame _ _).1],
    by rw [(errStateStep_frame _ _).2.1, (hrStatusStep_frame _ _).2.1],
    by rw [(errStateStep_frame _ _).2.2.1, (hrStatusStep_frame _ _).2.2.1],
    by rw [(errStateStep_frame _ _).2.2.2.2.1, (hrStatusStep_frame _ _).2.2.2.1],
    by rw [(errStateStep_frame _ _).2.2.2.2.2, (hrStatusStep_frame _ _).2.2.2.2]⟩

theorem getStandardPrinterStatus_status_ne (o : Oracle) (st : PrinterStatus)
    (h : st.status ≠ "") : (getStandardPrinterStatus o st).status ≠ "" := by
  unfold getStandardPrinterStatus
  rw [(errStateStep_frame _ _).2.2.2.1]
  exact hrStatusStep_status_ne o st h

theorem getPageCounts_frame (o : Oracle) (st : PrinterStatus) :
    (getPageCounts o st).host = st.host ∧
    (getPageCounts o st).drumLevel = st.drumLevel ∧
    (getPageCounts o st).drumMaxCapacity = st.drumMaxCapacity ∧
    (getPageCounts o st).status = st.status ∧
    (getPageCounts o st).model = st.model ∧
    (getPageCounts o st).activeAlerts = st.activeAlerts := by
  unfold getPageCounts
  exact ⟨by rw [(pcStep_frame _ _ _).1, (pcStep_frame _ _ _).1,
      (pcStep_frame _ _ _).1, (pcStep_frame _ _ _).1],
    by rw [(pcStep_frame _ _ _).2.1, (pcStep_frame _ _ _).2.1,
      (pcStep_frame _ _ _).2.1, (pcStep_frame _ _ _).2.1],
    by rw [(pcStep_frame _ _ _).2.2.1, (pcStep_frame _ _ _).2.2.1,
      (pcStep_frame _ _ _).2.2.1, (pcStep_frame _ _ _).2.2.1],
    by rw [(pcStep_frame _ _ _).2.2.2.1, (pcStep_frame _ _ _).2.2.2.1,
      (pcStep_frame _ _ _).2.2.2.1, (pcStep_frame _ _ _).2.2.2.1],
    by rw [(pcStep_frame _ _ _).2.2.2.2.1, (pcStep_frame _ _ _).2.2.2.2.1,
      (pcStep_frame _ _ _).2.2.2.2.1, (pcStep_frame _ _ _).2.2.2.2.1],
    by rw [(pcStep_frame _ _ _).2.2.2.2.2, (pcStep_frame _ _ _).2.2.2.2.2,
      (pcStep_frame _ _ _).2.2.2.2.2, (pcStep_frame _ _ _).2.2.2.2.2]⟩

theorem getErrorInfo_frame (o : Oracle) (st : PrinterStatus) :
    (getErrorInfo o st).host = st.host ∧
    (getErrorInfo o st).drumLevel = st.drumLevel ∧
    (getErrorInfo o st).drumMaxCapacity = st.drumMaxCapacity ∧
    (getErrorInfo o st).status = st.status ∧
    (getErrorInfo o st).model = st.model ∧
    (getErrorInfo o st).activeAlerts = st.activeAlerts := by
  unfold getErrorInfo
  exact ⟨by rw [(errInfoStep_frame _ _ _).1, (errInfoStep_frame _ _ _).1,
      (errInfoStep_frame _ _ _).1],
    by rw [(errInfoStep_frame _ _ _).2.1, (errInfoStep_frame _ _ _).2.1,
      (errInfoStep_frame _ _ _).2.1],
    by rw [(errInfoStep_frame _ _ _).2.2.1, (errInfoStep_frame _ _ _).2.2.1,
      (errInfoStep_frame _ _ _).2.2.1],
    by rw [(errInfoStep_frame _ _ _).2.2.2.1, (errInfoStep_frame _ _ _).2.2.2.1,
      (errInfoStep_frame _ _ _).2.2.2.1],
    by rw [(errInfoStep_frame _ _ _).2.2.2.2.1, (errInfoStep_frame _ _ _).2.2.2.2.1,
      (errInfoStep_frame _ _ _).2.2.2.2.1],
    by rw [(errInfoStep_frame _ _ _).2.2.2.2.2, (errInfoStep_frame _ _ _).2.2.2.2.2,
      (errInfoStep_frame _ _ _).2.2.2.2.2]⟩

theorem getBrotherMaintenanceInfo_frame (o : Oracle) (st : PrinterStatus) :
    (getBrotherMaintenanceInfo o st).host = st.host ∧
    (getBrotherMaintenanceInfo o st).drumLevel = st.drumLevel ∧
    (getBrotherMaintenanceInfo o st).drumMaxCapacity = st.drumMaxCapacity ∧
    (getBrotherMaintenanceInfo o st).activeAlerts = st.activeAlerts := by
  unfold getBrotherMaintenanceInfo
  exact ⟨by rw [(maintJamsStep_frame _ _).1, (maintPageStep_frame _ _).1,
      (maintStatusStep_frame _ _).1, (maintFirmSubStep_frame _ _).1,
      (maintFirmMainStep_frame _ _).1, (maintSysNameStep_frame _ _).1,
      (maintSerialStep_frame _ _).1, (maintModelStep_frame _ _).1],
    by rw [(maintJamsStep_frame _ _).2.1, (maintPageStep_frame _ _).2.1,
      (maintStatusStep_frame _ _).2.1, (maintFirmSubStep_frame _ _).2.1,
      (maintFirmMainStep_frame _ _).2.1, (maintSysNameStep_frame _ _).2.1,
      (maintSerialStep_frame _ _).2.1, (maintModelStep_frame _ _).2.1],
    by rw [(maintJamsStep_frame _ _).2.2.1, (maintPageStep_frame _ _).2.2.1,
      (maintStatusStep_frame _ _).2.2.1, (maintFirmSubStep_frame _ _).2.2.1,
      (maintFirmMainStep_frame _ _).2.2.1, (maintSysNameStep_frame _ _).2.2.1,
      (maintSerialStep_frame _ _).2.2.1, (maintModelStep_frame _ _).2.2.1],
    by rw [(maintJamsStep_frame _ _).2.2.2.2.2, (maintPageStep_frame _ _).2.2.2.2.2,
      (maintStatusStep_frame _ _).2.2.2.2, (maintFirmSubStep_frame _ _).2.2.2.2.2,
      (maintFirmMainStep_frame _ _).2.2.2.2.2, (maintSysNameStep_frame _ _).2.2.2.2.2,
      (maintSerialStep_frame _ _).2.2.2.2.2, (maintModelStep_frame _ _).2.2.2.2]⟩

theorem getBrotherMaintenanceInfo_status_ne (o : Oracle) (st : PrinterStatus)
    (h : st.status ≠ "") : (getBrotherMaintenanceInfo o st).status ≠ "" := by
  unfold getBrotherMaintenanceInfo
  rw [(maintJamsStep_frame _ _).2.2.2.1, (maintPageStep_frame _ _).2.2.2.1]
  refine maintStatusStep_status_ne _ _ ?_
  rw [(maintFirmSubStep_frame _ _).2.2.2.1, (maintFirmMainStep_frame _ _).2.2.2.1,
    (maintSysNameStep_frame _ _).2.2.2.1, (maintSerialStep_frame _ _).2.2.2.1,
    (maintModelStep_frame _ _).2.2.2.1]
  exact h

theorem getDeviceIdentity_frame (o : Oracle) (st : PrinterStatus) :
    (getDeviceIdentity o st).host = st.host ∧
    (getDeviceIdentity o st).drumLevel = st.drumLevel ∧
    (getDeviceIdentity o st).drumMaxCapacity = st.drumMaxCapacity ∧
    (getDeviceIdentity o st).status = st.status ∧
    (getDeviceIdentity o st).model = st.model ∧
    (getDeviceIdentity o st).activeAlerts = st.activeAlerts := by
  unfold getDeviceIdentity
  exact ⟨by rw [(idPrinterNameStep_frame _ _).1, (idSysNameStep_frame _ _).1,
      (idSysDescrStep_frame _ _).1],
    by rw [(idPrinterNameStep_frame _ _).2.1, (idSysNameStep_frame _ _).2.1,
      (idSysDescrStep_frame _ _).2.1],
    by rw [(idPrinterNameStep_frame _ _).2.2.1, (idSysNameStep_frame _ _).2.2.1,
      (idSysDescrStep_frame _ _).2.2.1],
    by rw [(idPrinterNameStep_frame _ _).2.2.2.1, (idSysNameStep_frame _ _).2.2.2.1,
      (idSysDescrStep_frame _ _).2.2.2.1],
    by rw [(idPrinterNameStep_frame _ _).2.2.2.2.1, (idSysNameStep_frame _ _).2.2.2.2.1,
      (idSysDescrStep_frame _ _).2.2.2.2.1],
    by rw [(idPrinterNameStep_frame _ _).2.2.2.2.2, (idSysNameStep_frame _ _).2.2.2.2.2.1,
      (idSysDescrStep_frame _ _).2.2.2.2.2.1]⟩

theorem getDeviceStatus_frame (o : Oracle) (st : PrinterStatus) :
    (getDeviceStatus o st).host = st.host ∧
    (getDeviceStatus o st).drumLevel = st.drumLevel ∧
    (getDeviceStatus o st).drumMaxCapacity = st.drumMaxCapacity ∧
    (getDeviceStatus o st).model = st.model ∧
    (getDeviceStatus o st).activeAlerts = st.activeAlerts := by
  unfold getDeviceStatus
  exact ⟨by rw [(dsHrDeviceStep_frame _ _).1, (dsUptimeStep_frame _ _).1,
      (dsGenStatusStep_frame _ _).1],
    by rw [(dsHrDeviceStep_frame _ _).2.1, (dsUptimeStep_frame _ _).2.1,
      (dsGenStatusStep_frame _ _).2.1],
    by rw [(dsHrDeviceStep_frame _ _).2.2.1, (dsUptimeStep_frame _ _).2.2.1,
      (dsGenStatusStep_frame _ _).2.2.1],
    by rw [(dsHrDeviceStep_frame _ _).2.2.2.2.1, (dsUptimeStep_frame _ _).2.2.2.2.1,
      (dsGenStatusStep_frame _ _).2.2.2.1],
    by rw [(dsHrDeviceStep_frame _ _).2.2.2.2.2, (dsUptimeStep_frame _ _).2.2.2.2.2,
      (dsGenStatusStep_frame _ _).2.2.2.2]⟩

theorem getDeviceStatus_status_ne (o : Oracle) (st : PrinterStatus)
    (h : st.status ≠ "") : (getDeviceStatus o st).status ≠ "" := by
  unfold getDeviceStatus
  rw [(dsHrDeviceStep_frame _ _).2.2.2.1, (dsUptimeStep_frame _ _).2.2.2.1]
  exact dsGenStatusStep_status_ne o st h

theorem getPageCounters_frame (o : Oracle) (st : PrinterStatus) :
    (getPageCounters o st).host = st.host ∧
    (getPageCounters o st).drumLevel = st.drumLevel ∧
    (getPageCounters o st).drumMaxCapacity = st.drumMaxCapacity ∧
    (getPageCounters o st).status = st.status ∧
    (getPageCounters o st).model = st.model ∧
    (getPageCounters o st).activeAlerts = st.activeAlerts := by
  unfold getPageCounters
  exact ⟨by rw [(pcUnitStep_frame _ _).1, (pcLifeStep_frame _ _).1],
    by rw [(pcUnitStep_frame _ _).2.1, (pcLifeStep_frame _ _).2.1],
    by rw [(pcUnitStep_frame _ _).2.2.1, (pcLifeStep_frame _ _).2.2.1],
    by rw [(pcUnitStep_frame _ _).2.2.2.1, (pcLifeStep_frame _ _).2.2.2.1],
    by rw [(pcUnitStep_frame _ _).2.2.2.2.1, (pcLifeStep_frame _ _).2.2.2.2.1],
    by rw [(pcUnitStep_frame _ _).2.2.2.2.2, (pcLifeStep_frame _ _).2.2.2.2.2]⟩

theorem maintModelStep_hit (o : Oracle) (st : PrinterStatus) (v : String)
    (hg : o.get maintModelOID = some (.octets v))
    (hc : goContains v "MODEL=" = true)
    (hl : (goSplit v "=").length > 1) :
    (maintModelStep o st).model = trimQuotes ((goSplit v "=").getD 1 "") := by
  unfold maintModelStep
  rw [hg]
  dsimp only
  rw [if_pos hc, if_pos hl]

theorem maintStatusStep_int (o : Oracle) (st : PrinterStatus) (d : Int)
    (hg : o.get hrPrinterStatusOID = some (.int d)) :
    (maintStatusStep o st).status = deviceClassText d := by
  unfold maintStatusStep
  rw [hg]

theorem dsGenStatusStep_int (o : Oracle) (st : PrinterStatus) (g : Int)
    (hg : o.get prtGeneralStatusOID = some (.int g)) :
    (dsGenStatusStep o st).status = generalStatusText g := by
  unfold dsGenStatusStep
  rw [hg]

theorem dsGenStatusStep_none (o : Oracle) (st : PrinterStatus)
    (hg : o.get prtGeneralStatusOID = none) :
    (dsGenStatusStep o st).status = st.status := by
  unfold dsGenStatusStep
  rw [hg]

theorem getBrotherMaintenanceInfo_model_hit (o : Oracle) (st : PrinterStatus)
    (v : String) (hg : o.get maintModelOID = some (.octets v))
    (hc : goContains v "MODEL=" = true)
    (hl : (goSplit v "=").length > 1) :
    (getBrotherMaintenanceInfo o st).model = trimQuotes ((goSplit v "=").getD 1 "") := by
  unfold getBrotherMaintenanceInfo
  rw [(maintJamsStep_frame _ _).2.2.2.2.1, (maintPageStep_frame _ _).2.2.2.2.1,
    (maintStatusStep_frame _ _).2.2.2.1, (maintFirmSubStep_frame _ _).2.2.2.2.1,
    (maintFirmMainStep_frame _ _).2.2.2.2.1, (maintSysNameStep_frame _ _).2.2.2.2.1,
    (maintSerialStep_frame _ _).2.2.2.2.1]
  exact maintModelStep_hit o st v hg hc hl

theorem getBrotherMaintenanceInfo_status_int (o : Oracle) (st : PrinterStatus)
    (d : Int) (hg : o.get hrPrinterStatusOID = some (.int d)) :
    (getBrotherMaintenanceInfo o st).status = deviceClassText d := by
  unfold getBrotherMaintenanceInfo
  rw [(maintJamsStep_frame _ _).2.2.2.1, (maintPageStep_frame _ _).2.2.2.1]
  exact maintStatusStep_int o _ d hg

theorem getDeviceStatus_status_int (o : Oracle) (st : PrinterStatus) (g : Int)
    (hg : o.get prtGeneralStatusOID = some (.int g)) :
    (getDeviceStatus o st).status = generalStatusText g := by
  unfold getDeviceStatus
  rw [(dsHrDeviceStep_frame _ _).2.2.2.1, (dsUptimeStep_frame _ _).2.2.2.1]
  exact dsGenStatusStep_int o st g hg

theorem getDeviceStatus_status_none (o : Oracle) (st : PrinterStatus)
    (hg : o.get prtGeneralStatusOID = none) :
    (getDeviceStatus o st).status = st.status := by
  unfold getDeviceStatus
  rw [(dsHrDeviceStep_frame _ _).2.2.2.1, (dsUptimeStep_frame _ _).2.2.2.1]
  exact dsGenStatusStep_none o st hg

theorem runProbes_host (o : Oracle) (st : PrinterStatus) :
    (runProbes o st).host = st.host := by
  unfold runProbes
  rw [(getPaperTrays_frame _ _).1, (getAlertsAndErrors_frame _ _).1,
    (getPageCounters_frame _ _).1, (getDeviceStatus_frame _ _).1,
    (getDeviceIdentity_frame _ _).1, (getBrotherMaintenanceInfo_frame _ _).1,
    (getErrorInfo_frame _ _).1, (getPageCounts_frame _ _).1,
    (getTonerLevels_frame _ _).1, (getStandardPrinterStatus_frame _ _).1,
    (getBrotherInfo_frame _ _).1]

theorem runProbes_drum (o : Oracle) (st : PrinterStatus) :
    (runProbes o st).drumLevel = st.drumLevel ∧
    (runProbes o st).drumMaxCapacity = st.drumMaxCapacity := by
  unfold runProbes
  exact ⟨by rw [(getPaperTrays_frame _ _).2.1, (getAlertsAndErrors_frame _ _).2.1,
      (getPageCounters_frame _ _).2.1, (getDeviceStatus_frame _ _).2.1,
      (getDeviceIdentity_frame _ _).2.1, (getBrotherMaintenanceInfo_frame _ _).2.1,
      (getErrorInfo_frame _ _).2.1, (getPageCounts_frame _ _).2.1,
      (getTonerLevels_frame _ _).2.1, (getStandardPrinterStatus_frame _ _).2.1,
      (getBrotherInfo_frame _ _).2.1],
    by rw [(getPaperTrays_frame _ _).2.2.1, (getAlertsAndErrors_frame _ _).2.2.1,
      (getPageCounters_frame _ _).2.2.1, (getDeviceStatus_frame _ _).2.2.1,
      (getDeviceIdentity_frame _ _).2.2.1, (getBrotherMaintenanceInfo_frame _ _).2.2.1,
      (getErrorInfo_frame _ _).2.2.1, (getPageCounts_frame _ _).2.2.1,
      (getTonerLevels_frame _ _).2.2.1, (getStandardPrinterStatus_frame _ _).2.2.1,
      (getBrotherInfo_frame _ _).2.2.1]⟩

theorem runProbes_alerts (o : Oracle) (st : PrinterStatus) :
    ∃ l, (runProbes o st).activeAlerts = some l := by
  unfold runProbes
  rw [(getPaperTrays_frame _ _).2.2.2.2.2]
  exact getAlertsAndErrors_alerts o _

theorem runProbes_status_ne (o : Oracle) (st : PrinterStatus)
    (h : st.status ≠ "") : (runProbes o st).status ≠ "" := by
  unfold runProbes
  rw [(getPaperTrays_frame _ _).2.2.2.1, (getAlertsAndErrors_frame _ _).2.2.2.1,
    (getPageCounters_frame _ _).2.2.2.1]
  refine getDeviceStatus_status_ne _ _ ?_
  rw [(getDeviceIdentity_frame _ _).2.2.2.1]
  refine getBrotherMaintenanceInfo_status_ne _ _ ?_
  rw [(getErrorInfo_frame _ _).2.2.2.1, (getPageCounts_frame _ _).2.2.2.1,
    (getTonerLevels_frame _ _).2.2.2.1]
  refine getStandardPrinterStatus_status_ne _ _ ?_
  rw [(getBrotherInfo_frame _ _).2.2.2.1]
  exact h

theorem runProbes_status_gen (o : Oracle) (st : PrinterStatus) (g : Int)
    (hg : o.get prtGeneralStatusOID = some (.int g)) :
    (runProbes o st).status = generalStatusText g := by
  unfold runProbes
  rw [(getPaperTrays_frame _ _).2.2.2.1, (getAlertsAndErrors_frame _ _).2.2.2.1,
    (getPageCounters_frame _ _).2.2.2.1]
  exact getDeviceStatus_status_int o _ g hg

theorem runProbes_status_dev (o : Oracle) (st : PrinterStatus) (d : Int)
    (hgen : o.get prtGeneralStatusOID = none)
    (hhr : o.get hrPrinterStatusOID = some (.int d)) :
    (runProbes o st).status = deviceClassText d := by
  unfold runProbes
  rw [(getPaperTrays_frame _ _).2.2.2.1, (getAlertsAndErrors_frame _ _).2.2.2.1,
    (getPageCounters_frame _ _).2.2.2.1, getDeviceStatus_status_none o _ hgen,
    (getDeviceIdentity_frame _ _).2.2.2.1]
  exact getBrotherMaintenanceInfo_status_int o _ d hhr

theorem runProbes_model_hit (o : Oracle) (st : PrinterStatus) (v : String)
    (hg : o.get maintModelOID = some (.octets v))
    (hc : goContains v "MODEL=" = true)
    (hl : (goSplit v "=").length > 1) :
    (runProbes o st).model = trimQuotes ((goSplit v "=").getD 1 "") := by
  unfold runProbes
  rw [(getPaperTrays_frame _ _).2.2.2.2.1, (getAlertsAndErrors_frame _ _).2.2.2.2,
    (getPageCounters_frame _ _).2.2.2.2.1, (getDeviceStatus_frame _ _).2.2.2.1,
    (getDeviceIdentity_frame _ _).2.2.2.2.1]
  exact getBrotherMaintenanceInfo_model_hit o _ v hg hc hl

/-! List-level lemmas for the walk accumulators: the kept-alert fold
equals filter-then-map, the tray emission fold equals a `filterMap`,
accumulator keys are distinct, and lookups along the key list enumerate
the accumulated rows. -/


theorem keptAlerts_spec (entries : List (String × SnmpValue)) :
    keptAlerts entries = specKeptAlerts entries := by
  have aux : ∀ (es : List (String × SnmpValue)) (acc : List String),
      es.foldl
        (fun acc e =>
          let valueStr := e.2.renderV
          if valueStr ≠ "0" ∧ valueStr ≠ "" then acc ++ [e.1 ++ ": " ++ valueStr]
          else acc)
        acc = acc ++ specKeptAlerts es := by
    intro es
    induction es with
    | nil => intro acc; simp [specKeptAlerts]
    | cons e tl ih =>
      intro acc
      by_cases hp : e.2.renderV ≠ "0" ∧ e.2.renderV ≠ ""
      · simp only [List.foldl_cons, if_pos hp, ih, specKeptAlerts, List.filter_cons,
          decide_eq_true_eq, List.map_cons]
        simp [List.append_assoc]
      · simp only [List.foldl_cons, if_neg hp, ih, specKeptAlerts, List.filter_cons,
          decide_eq_true_eq]
  exact aux entries []

theorem emitTrays_eq_filterMap (acc : List (String × TrayRow)) (order : List String) :
    emitTrays acc order = order.filterMap fun k => (lookupRow k acc).bind qualTray := by
  have aux : ∀ (ks : List String) (out : List PaperTray),
      ks.foldl
        (fun out k =>
          match lookupRow k acc with
          | some r =>
            match qualTray r with
            | some t => out ++ [t]
            | none => out
          | none => out)
        out = out ++ ks.filterMap fun k => (lookupRow k acc).bind qualTray := by
    intro ks
    induction ks with
    | nil => intro out; simp
    | cons k tl ih =>
      intro out
      cases hk : lookupRow k acc with
      | none => simp only [List.foldl_cons, hk, List.filterMap_cons, Option.none_bind]; exact ih out
      | some r =>
        cases hq : qualTray r with
        | none =>
          simp only [List.foldl_cons, hk, hq, List.filterMap_cons, Option.some_bind]
          exact ih out
        | some t =>
          simp only [List.foldl_cons, hk, hq, List.filterMap_cons, Option.some_bind]
          rw [ih]
          simp [List.append_assoc]
  exact aux order []

theorem updateRowAt_keys {α : Type} (d : α) (acc : List (String × α)) (idx : String)
    (f : α → α) :
    (updateRowAt d acc idx f).map Prod.fst =
      if (acc.find? fun p => p.1 = idx).isSome then acc.map Prod.fst
      else acc.map Prod.fst ++ [idx] := by
  unfold updateRowAt
  split_ifs with h
  · rw [List.map_map]
    have hfun : (Prod.fst ∘ fun p : String × α =>
        if p.1 = idx then (p.1, f p.2) else p) = Prod.fst := by
      funext p
      dsimp only [Function.comp]
      split <;> rfl
    rw [hfun]
  · rw [List.map_append]
    rfl

theorem updateRowAt_nodup {α : Type} (d : α) (acc : List (String × α)) (idx : String)
    (f : α → α) (h : (acc.map Prod.fst).Nodup) :
    ((updateRowAt d acc idx f).map Prod.fst).Nodup := by
  rw [updateRowAt_keys]
  split_ifs with hfind
  · exact h
  · have hnotmem : idx ∉ acc.map Prod.fst := by
      intro hmem
      obtain ⟨p, hp, hfst⟩ := List.mem_map.mp hmem
      have := List.find?_eq_none.mp (Option.not_isSome_iff_eq_none.mp hfind) p hp
      simp only [decide_eq_true_eq] at this
      exact this hfst
    refine List.Nodup.append h (List.nodup_singleton idx) ?_
    intro a ha hb
    rw [List.mem_singleton] at hb
    exact hnotmem (hb ▸ ha)

theorem accumTrays_keys_nodup (entries : List (String × SnmpValue)) :
    ((accumTrays entries).map Prod.fst).Nodup := by
  unfold accumTrays
  have aux : ∀ (es : List (String × SnmpValue)) (acc : List (String × TrayRow)),
      (acc.map Prod.fst).Nodup → ((es.foldl trayStep acc).map Prod.fst).Nodup := by
    intro es
    induction es with
    | nil => intro acc h; exact h
    | cons e tl ih =>
      intro acc h
      refine ih (trayStep acc e) ?_
      unfold trayStep
      cases he : oidSuffix e.1 with
      | none => exact h
      | some si => exact updateRowAt_nodup _ _ _ _ h
  exact aux entries [] (by simp)

theorem lookup_filterMap {α β : Type} (g : α → Option β) :
    ∀ (acc : List (String × α)), (acc.map Prod.fst).Nodup →
      ((acc.map Prod.fst).filterMap fun k => (lookupRow k acc).bind g) =
        acc.filterMap fun kv => g kv.2 := by
  intro acc
  induction acc with
  | nil => intro _; rfl
  | cons hd tl ih =>
    intro hnd
    rw [List.map_cons, List.nodup_cons] at hnd
    obtain ⟨hnotmem, hnd⟩ := hnd
    rw [List.map_cons, List.filterMap_cons, List.filterMap_cons]
    have hhd : lookupRow hd.1 (hd :: tl) = some hd.2 := by
      unfold lookupRow
      rw [List.find?_cons_of_pos _ (by simp)]
      rfl
    have htl : ∀ k ∈ tl.map Prod.fst,
        lookupRow k (hd :: tl) = lookupRow k tl := by
      intro k hk
      unfold lookupRow
      rw [List.find?_cons_of_neg]
      simp only [decide_eq_true_eq]
      intro heq
      exact hnotmem (heq ▸ hk)
    have hcongr : (tl.map Prod.fst).filterMap (fun k => (lookupRow k (hd :: tl)).bind g) =
        (tl.map Prod.fst).filterMap fun k => (lookupRow k tl).bind g :=
      List.filterMap_congr fun k hk => by rw [htl k hk]
    rw [hhd, hcongr, ih hnd]
    cases hg2 : g hd.2 <;> simp [hg2]

theorem scanToner_first (acc : List (String × SupplyRow)) (k : String)
    (post : List String) (r : SupplyRow) (hk : lookupRow k acc = some r)
    (hq : qualRow r = true) :
    ∀ (pre : List String) (tl : Int),
      (∀ j ∈ pre, ∀ rj, lookupRow j acc = some rj → qualRow rj = false) →
      scanToner acc (pre ++ k :: post) tl = rowPct r := by
  simp only [qualRow, Bool.and_eq_true, decide_eq_true_eq] at hq
  obtain ⟨hcls, hrest⟩ := hq
  intro pre
  induction pre with
  | nil =>
    intro tl _
    simp only [List.nil_append, scanToner, hk]
    rw [if_pos hcls]
    cases hm : r.maxCapacity with
    | none => rw [hm] at hrest; cases hl : r.currentLevel <;> rw [hl] at hrest <;> simp at hrest
    | some m =>
      cases hl : r.currentLevel with
      | none => rw [hm, hl] at hrest; simp at hrest
      | some l =>
        rw [hm, hl] at hrest
        simp only [Bool.and_eq_true, decide_eq_true_eq] at hrest
        simp only [hm, hl]
        rw [if_pos ⟨hrest.1, hrest.2⟩]
        simp [rowPct, hm, hl]
  | cons j pre ih =>
    intro tl hpre
    have hpre' : ∀ a ∈ pre, ∀ rj, lookupRow a acc = some rj → qualRow rj = false :=
      fun a ha => hpre a (List.mem_cons_of_mem j ha)
    have hj := hpre j (List.mem_cons_self j pre)
    simp only [List.cons_append, scanToner]
    cases hlj : lookupRow j acc with
    | none => exact ih tl hpre'
    | some rj =>
      have hqj := hj rj hlj
      dsimp only
      by_cases hc : rj.supplyClass = some 3
      · rw [if_pos hc]
        cases hm : rj.maxCapacity with
        | none =>
          cases hl : rj.currentLevel with
          | none => exact ih tl hpre'
          | some l => exact ih (applySentinel l tl) hpre'
        | some m =>
          cases hl : rj.currentLevel with
          | none => exact ih tl hpre'
          | some l =>
            have hcond : ¬(m > 0 ∧ l ≥ 0) := by
              intro hfalse
              rw [qualRow, hm, hl] at hqj
              simp only [Bool.and_eq_true, decide_eq_true_eq] at hqj
              simp [hc, hfalse.1, hfalse.2] at hqj
            dsimp only
            rw [if_neg hcond]
            exact ih (applySentinel l tl) hpre'
      · rw [if_neg hc]
        exact ih tl hpre'

theorem scanToner_noqual (acc : List (String × SupplyRow)) :
    ∀ (order : List String) (tl : Int),
      (∀ j ∈ order, ∀ rj, lookupRow j acc = some rj → qualRow rj = false) →
      scanToner acc order tl = if hasSentinel acc order then -1 else tl := by
  intro order
  induction order with
  | nil => intro tl _; simp [scanToner, hasSentinel]
  | cons j rest ih =>
    intro tl hno
    have hno' : ∀ a ∈ rest, ∀ rj, lookupRow a acc = some rj → qualRow rj = false :=
      fun a ha => hno a (List.mem_cons_of_mem j ha)
    have hj := hno j (List.mem_cons_self j rest)
    cases hlj : lookupRow j acc with
    | none =>
      simp only [scanToner, hasSentinel, List.any_cons, hlj, Bool.false_or]
      rw [ih tl hno']
      simp [hasSentinel]
    | some rj =>
      have hqj := hj rj hlj
      simp only [scanToner, hasSentinel, List.any_cons, hlj]
      by_cases hc : rj.supplyClass = some 3
      · rw [if_pos hc]
        cases hm : rj.maxCapacity with
        | none =>
          cases hl : rj.currentLevel with
          | none =>
            dsimp only
            rw [ih tl hno']
            have hsent : sentinelRow rj = false := by simp [sentinelRow, hl]
            simp [hsent, hasSentinel]
          | some l =>
            dsimp only
            rw [ih (applySentinel l tl) hno']
            by_cases h2 : l = -2
            · have hsent : sentinelRow rj = true := by simp [sentinelRow, hc, hl, h2]
              simp only [hsent, Bool.true_or, if_true, applySentinel, if_pos h2]
              split_ifs <;> rfl
            · by_cases h3 : l = -3
              · have hsent : sentinelRow rj = true := by simp [sentinelRow, hc, hl, h3]
                simp only [hsent, Bool.true_or, if_true, applySentinel, if_neg h2,
                  if_pos h3]
                split_ifs <;> rfl
              · have hsent : sentinelRow rj = false := by
                  simp only [sentinelRow, hl, hc]
                  simp [Option.some_inj, h2, h3]
                simp only [hsent, Bool.false_or, applySentinel, if_neg h2, if_neg h3]
                simp [hasSentinel]
        | some m =>
          cases hl : rj.currentLevel with
          | none =>
            dsimp only
            rw [ih tl hno']
            have hsent : sentinelRow rj = false := by simp [sentinelRow, hl]
            simp [hsent, hasSentinel]
          | some l =>
            have hcond : ¬(m > 0 ∧ l ≥ 0) := by
              intro hfalse
              rw [qualRow, hm, hl] at hqj
              simp only [Bool.and_eq_true, decide_eq_true_eq] at hqj
              simp [hc, hfalse.1, hfalse.2] at hqj
            dsimp only
            rw [if_neg hcond, ih (applySentinel l tl) hno']
            by_cases h2 : l = -2
            · have hsent : sentinelRow rj = true := by simp [sentinelRow, hc, hl, h2]
              simp only [hsent, Bool.true_or, if_true, applySentinel, if_pos h2]
              split_ifs <;> rfl
            · by_cases h3 : l = -3
              · have hsent : sentinelRow rj = true := by simp [sentinelRow, hc, hl, h3]
                simp only [hsent, Bool.true_or, if_true, applySentinel, if_neg h2,
                  if_pos h3]
                split_ifs <;> rfl
              · have hsent : sentinelRow rj = false := by
                  simp only [sentinelRow, hl, hc]
                  simp [Option.some_inj, h2, h3]
                simp only [hsent, Bool.false_or, applySentinel, if_neg h2, if_neg h3]
                simp [hasSentinel]
      · rw [if_neg hc]
        rw [ih tl hno']
        have hsent : sentinelRow rj = false := by simp [sentinelRow, hc]
        simp [hsent, hasSentinel]

set_option maxRecDepth 8000 in
/-- C7: for every error code in [0,63] the decoded description is the
comma-joined list of exactly the set bits' reasons in ascending bit
order (bit0 paper out, bit1 paper jam, bit2 toner low, bit3 door open,
bit4 toner empty, bit5 service required), with code 0 decoding to
"No errors"; and any non-zero code with no matching bits (checked for
all codes below 1024) decodes to "Unknown error (code: N)". -/
theorem parseErrorDescription_spec :
    (∀ k : Fin 64, parseErrorDescription ((k : Nat) : Int) =
      if ((k : Nat) : Int) = 0 then "No errors"
      else String.intercalate ", " (specErrorReasons ((k : Nat) : Int))) ∧
    (∀ k : Fin 1024, ((k : Nat) : Int) ≠ 0 → Int.land ((k : Nat) : Int) 63 = 0 →
      parseErrorDescription ((k : Nat) : Int) =
        "Unknown error (code: " ++ toString ((k : Nat) : Int) ++ ")") := by
  constructor
  · decide
  · decide

/-- Witness for the C7 theorem at the concrete code 64. -/
theorem parseErrorDescription_spec_witness :
    parseErrorDescription (((64 : Fin 1024) : Nat) : Int) =
      "Unknown error (code: " ++ toString (((64 : Fin 1024) : Nat) : Int) ++ ")" :=
  parseErrorDescription_spec.2 64 (by decide) (by decide)

/-- C6 (code-bug evaluation): `Submit` after `Close` performs an
unguarded send on the closed job queue, which is a runtime panic — it
does not fail as a guarded usage error, for any scheduler state and any
job. -/
theorem submit_after_close_panics (s : Scheduler) (job : Nat) :
    (s.Close).Submit job = SubmitResult.panicked := by
  by_cases hs : s.started <;>
    simp [Scheduler.Submit, Scheduler.Close, chanSend, hs]

/-- C1 (code-bug evaluation): with the vendor page-count candidate
answering a strictly positive Counter32 (7) and the vendor-alternate
candidate a strictly positive Integer (3), the candidate scan does not
stop at the first strictly-positive value: the `break` in the Counter32
branch only exits the inner type switch, the later candidate is still
consulted, and the final total-pages field is 3, not 7. -/
theorem pageCounts_break_eval :
    (getPageCounts pageBreakOracle (initStatus "printer")).totalPages = 3 ∧
    (Poll pageBreakOracle "printer").map PrinterStatus.totalPages = Except.ok 3 ∧
    (3 : Int) ≠ 7 := by
  exact ⟨rfl, rfl, by decide⟩

/-- C3: `Poll` fails exactly when the connection cannot be established
(with the wrapped connect error and no probe run); on any successful
connection it returns a record and no error; and a device that connects
but fails every single probe yields the default record. -/
theorem poll_connection_policy :
    (∀ (o : Oracle) (host : String), o.connOk = false →
      Poll o host = Except.error ("failed to connect to " ++ host)) ∧
    (∀ (o : Oracle) (host : String), o.connOk = true →
      Poll o host = Except.ok (runProbes o (initStatus host))) ∧
    (∀ host : String, Poll allFailOracle host = Except.ok (defaultRecord host)) := by
  refine ⟨?_, ?_, ?_⟩
  · intro o host h
    simp [Poll, h]
  · intro o host h
    simp [Poll, h]
  · intro host
    rfl

/-- Witness for the C3 theorem: a refused connection and an
all-probes-fail device. -/
theorem poll_connection_policy_witness :
    Poll noConnOracle "printer" = Except.error ("failed to connect to " ++ "printer") ∧
    Poll allFailOracle "printer" = Except.ok (defaultRecord "printer") :=
  ⟨poll_connection_policy.1 noConnOracle "printer" rfl,
   poll_connection_policy.2.2 "printer"⟩

/-- C10: whenever `Poll` succeeds, the returned record's `Host` equals
the polled address, its `Status` is never the empty string (it is
pre-initialised to "unknown" and every status write is non-empty), and
its active-alerts list is non-nil. -/
theorem poll_success_invariants (o : Oracle) (host : String) (r : PrinterStatus)
    (hpoll : Poll o host = Except.ok r) :
    r.host = host ∧ r.status ≠ "" ∧ r.activeAlerts ≠ none := by
  unfold Poll at hpoll
  split at hpoll
  · have hr : r = runProbes o (initStatus host) := by
      injection hpoll with h2
      exact h2.symm
    subst hr
    refine ⟨?_, ?_, ?_⟩
    · rw [runProbes_host]
      rfl
    · exact runProbes_status_ne o _ (show ("unknown" : String) ≠ "" by decide)
    · obtain ⟨l, hl⟩ := runProbes_alerts o (initStatus host)
      rw [hl]
      simp
  · exact absurd hpoll (by simp)

/-- Witness for the C10 theorem at the all-probes-fail device. -/
theorem poll_success_invariants_witness :
    (defaultRecord "printer").host = "printer" ∧
    (defaultRecord "printer").status ≠ "" ∧
    (defaultRecord "printer").activeAlerts ≠ none :=
  poll_success_invariants allFailOracle "printer" (defaultRecord "printer") rfl

/-- C4 (counterexample): after the alert walk visiting the decoded
values ["0","2","0","paper jam"] at OIDs a, b, c, d, the kept entries
are recorded as "oid: value" strings — ["b: 2", "d: paper jam"] with
last error "b: 2" — not the bare decoded values ["2", "paper jam"] /
"2" the claim states. -/
theorem alerts_kept_counterexample :
    (getAlertsAndErrors alertOracle (initStatus "printer")).activeAlerts =
      some ["b: 2", "d: paper jam"] ∧
    (getAlertsAndErrors alertOracle (initStatus "printer")).errorCount = 2 ∧
    (getAlertsAndErrors alertOracle (initStatus "printer")).lastError = "b: 2" ∧
    (getAlertsAndErrors alertOracle (initStatus "printer")).lastError ≠ "2" ∧
    (getAlertsAndErrors alertOracle (initStatus "printer")).activeAlerts ≠
      some ["2", "paper jam"] := by
  exact ⟨rfl, rfl, rfl, by decide, by decide⟩

/-- C4 (amended): after a successful alert walk the kept list contains
exactly the visited entries whose decoded value is neither "0" nor
empty, in visit order, each recorded as the string "oid: value"; the
error count equals the number of kept entries, and when any entry is
kept the last error is the first kept entry. -/
theorem alerts_kept_amended (o : Oracle) (st : PrinterStatus)
    (entries : List (String × SnmpValue))
    (hw : o.walks alertBaseOID = some entries) :
    (getAlertsAndErrors o st).activeAlerts = some (specKeptAlerts entries) ∧
    (getAlertsAndErrors o st).errorCount = ((specKeptAlerts entries).length : Int) ∧
    (specKeptAlerts entries ≠ [] →
      (getAlertsAndErrors o st).lastError = (specKeptAlerts entries).getD 0 "") := by
  unfold getAlertsAndErrors
  rw [hw]
  dsimp only
  rw [keptAlerts_spec]
  by_cases hk : (specKeptAlerts entries).length > 0
  · rw [if_pos hk]
    exact ⟨rfl, rfl, fun _ => rfl⟩
  · rw [if_neg hk]
    refine ⟨rfl, rfl, fun hne => ?_⟩
    exact absurd (List.length_eq_zero.mp (Nat.eq_zero_of_not_pos hk)) hne

/-- Witness for the C4 amended theorem at the concrete alert walk. -/
theorem alerts_kept_amended_witness :
    (getAlertsAndErrors alertOracle (initStatus "printer")).activeAlerts =
      some (specKeptAlerts alertWalkEntries) ∧
    (getAlertsAndErrors alertOracle (initStatus "printer")).errorCount =
      ((specKeptAlerts alertWalkEntries).length : Int) ∧
    (getAlertsAndErrors alertOracle (initStatus "printer")).lastError =
      (specKeptAlerts alertWalkEntries).getD 0 "" :=
  ⟨(alerts_kept_amended alertOracle (initStatus "printer") alertWalkEntries rfl).1,
   (alerts_kept_amended alertOracle (initStatus "printer") alertWalkEntries rfl).2.1,
   (alerts_kept_amended alertOracle (initStatus "printer") alertWalkEntries rfl).2.2
     (by decide)⟩

/-- C5 (counterexample): on a device where all three status sources
respond — the shared OID `1.3.6.1.2.1.25.3.5.1.1.1` answers 2, which
the device-class enumeration decodes as "Running", and the
prtGeneralPrinterStatus source answers 4 ("Printing") — the final
Status is "Printing", not the device-class value "Running" the claim
requires: the general-status probe runs last, not the device-class
probe. -/
theorem status_priority_counterexample :
    statusOrderOracle.get hrPrinterStatusOID = some (.int 2) ∧
    statusOrderOracle.get prtGeneralStatusOID = some (.int 4) ∧
    deviceClassText 2 = "Running" ∧
    (Poll statusOrderOracle "printer").map PrinterStatus.status =
      Except.ok "Printing" ∧
    ("Printing" : String) ≠ "Running" := by
  exact ⟨rfl, rfl, rfl, rfl, by decide⟩

/-- C5 (amended): the three status sources are applied in the fixed
order generic first, then device-class/maintenance, then general-status
last, with conflicts resolved by last-probe-in-order wins: whenever the
general-status source responds with an Integer it determines the final
Status through its enumeration, and when it does not respond but the
shared device-class source does, the device-class enumeration
determines the final Status. -/
theorem status_priority_amended :
    (∀ (o : Oracle) (host : String) (r : PrinterStatus) (g : Int),
      Poll o host = Except.ok r → o.get prtGeneralStatusOID = some (.int g) →
      r.status = generalStatusText g) ∧
    (∀ (o : Oracle) (host : String) (r : PrinterStatus) (d : Int),
      Poll o host = Except.ok r → o.get prtGeneralStatusOID = none →
      o.get hrPrinterStatusOID = some (.int d) →
      r.status = deviceClassText d) := by
  constructor
  · intro o host r g hpoll hg
    unfold Poll at hpoll
    split at hpoll
    · injection hpoll with h2
      rw [← h2]
      exact runProbes_status_gen o _ g hg
    · exact absurd hpoll (by simp)
  · intro o host r d hpoll hgen hhr
    unfold Poll at hpoll
    split at hpoll
    · injection hpoll with h2
      rw [← h2]
      exact runProbes_status_dev o _ d hgen hhr
    · exact absurd hpoll (by simp)

/-- Witness for the C5 amended theorem: the all-sources device takes the
general-status value, the device-class-only device takes the
device-class value. -/
theorem status_priority_amended_witness :
    (runProbes statusOrderOracle (initStatus "printer")).status =
      generalStatusText 4 ∧
    (runProbes devClassOracle (initStatus "printer")).status =
      deviceClassText 2 :=
  ⟨status_priority_amended.1 statusOrderOracle "printer" _ 4 rfl rfl,
   status_priority_amended.2 devClassOracle "printer" _ 2 rfl rfl rfl⟩

/-- C8 (counterexample): the capability probe extracts the non-empty
model "HL-2270DW", but the later maintenance probe, answering the
literal "MODEL=" whose extracted value is empty, overwrites it — after
the full poll the model field is empty, so a later empty extraction
does overwrite a prior non-empty identity value. -/
theorem model_overwrite_counterexample :
    (getBrotherInfo modelResetOracle (initStatus "printer")).model = "HL-2270DW" ∧
    ("HL-2270DW" : String) ≠ "" ∧
    (Poll modelResetOracle "printer").map PrinterStatus.model = Except.ok "" := by
  exact ⟨rfl, by decide, rfl⟩

/-- C8 (amended): a later probe's extracted identity value overwrites
the earlier value whenever the probe's key marker matches, even when
the extracted value is empty (shown for the maintenance MODEL= source,
which unconditionally determines the final model field); the
empty-never-overwrites guard holds only for the guarded sources, shown
for the printer-name probe, which either leaves the field unchanged or
stores a non-empty value. -/
theorem identity_merge_amended :
    (∀ (o : Oracle) (host : String) (r : PrinterStatus) (v : String),
      Poll o host = Except.ok r →
      o.get maintModelOID = some (.octets v) →
      goContains v "MODEL=" = true → (goSplit v "=").length > 1 →
      r.model = trimQuotes ((goSplit v "=").getD 1 "")) ∧
    (∀ (o : Oracle) (st : PrinterStatus),
      (getDeviceIdentity o st).printerName = st.printerName ∨
      ∃ v, v ≠ "" ∧ (getDeviceIdentity o st).printerName = v) := by
  constructor
  · intro o host r v hpoll hg hc hl
    unfold Poll at hpoll
    split at hpoll
    · injection hpoll with h2
      rw [← h2]
      exact runProbes_model_hit o _ v hg hc hl
    · exact absurd hpoll (by simp)
  · intro o st
    have hpn : (idSysNameStep o (idSysDescrStep o st)).printerName = st.printerName := by
      rw [(idSysNameStep_frame _ _).2.2.2.2.2.2, (idSysDescrStep_frame _ _).2.2.2.2.2.2]
    unfold getDeviceIdentity idPrinterNameStep
    cases hv : o.get prtNameOID with
    | none => exact Or.inl hpn
    | some v =>
      cases v <;> dsimp only <;> try exact Or.inl hpn
      rename_i value
      by_cases hne : value ≠ ""
      · rw [if_pos hne]
        exact Or.inr ⟨value, hne, rfl⟩
      · rw [if_neg hne]
        exact Or.inl hpn

/-- Witness for the C8 amended theorem at the model-resetting device. -/
theorem identity_merge_amended_witness :
    (runProbes modelResetOracle (initStatus "printer")).model =
      trimQuotes ((goSplit "MODEL=" "=").getD 1 "") ∧
    ((getDeviceIdentity modelResetOracle (initStatus "printer")).printerName =
        (initStatus "printer").printerName ∨
      ∃ v, v ≠ "" ∧
        (getDeviceIdentity modelResetOracle (initStatus "printer")).printerName = v) :=
  ⟨identity_merge_amended.1 modelResetOracle "printer" _ "MODEL=" rfl rfl
      (by decide) (by decide),
   identity_merge_amended.2 modelResetOracle (initStatus "printer")⟩

theorem qualTray_name (rr : TrayRow) (t : PaperTray) (h : qualTray rr = some t) :
    t.name ≠ "" := by
  unfold qualTray at h
  cases hn : rr.name with
  | none => rw [hn] at h; cases hs : rr.statusCode <;> rw [hs] at h <;> simp at h
  | some n =>
    cases hs : rr.statusCode with
    | none => rw [hn, hs] at h; simp at h
    | some st =>
      rw [hn, hs] at h
      dsimp only at h
      by_cases hne : n ≠ ""
      · rw [if_pos hne] at h
        injection h with h2
        rw [← h2]
        exact hne
      · rw [if_neg hne] at h
        simp at h

/-- C9 (counterexample): with a tray walk whose first-seen indices are
[1.1, 1.2] but whose accumulator map iterates in the (equally legal)
order [1.2, 1.1], the emitted tray records come out in accumulator
iteration order — Tray 2 before Tray 1 — not in first-seen order: the
emission ranges over an unordered Go map and does not preserve
first-seen order. -/
theorem trays_order_counterexample :
    trayOrderOracle.trayOrder.Perm ((accumTrays trayWalkEntries).map Prod.fst) ∧
    (Poll trayOrderOracle "printer").map PrinterStatus.paperTrays =
      Except.ok (some
        [{ index := 1, name := "Tray 2", status := 4, capacity := 0 },
         { index := 1, name := "Tray 1", status := 5, capacity := 250 }]) ∧
    ([{ index := 1, name := "Tray 2", status := 4, capacity := 0 },
      { index := 1, name := "Tray 1", status := 5, capacity := 250 }] :
        List PaperTray) ≠
      [{ index := 1, name := "Tray 1", status := 5, capacity := 250 },
       { index := 1, name := "Tray 2", status := 4, capacity := 0 }] := by
  exact ⟨List.Perm.swap "1.1" "1.2" [], rfl, by decide⟩

/-- C9 (amended): after the walk, whatever iteration order the
accumulator map uses (any permutation of the accumulated composite
indices), the emitted tray list is a permutation of — and has the same
length as — the list of one record per accumulated row having a
non-empty name and a seen status code (capacity defaulting to 0); every
emitted record has a non-empty name.  The emission order is the
accumulator's incidental iteration order, not necessarily first-seen
order. -/
theorem trays_emit_amended (entries : List (String × SnmpValue))
    (order : List String)
    (hperm : order.Perm ((accumTrays entries).map Prod.fst)) :
    (emitTrays (accumTrays entries) order).Perm
      ((accumTrays entries).filterMap fun kv => qualTray kv.2) ∧
    (∀ t ∈ emitTrays (accumTrays entries) order, t.name ≠ "") ∧
    (emitTrays (accumTrays entries) order).length =
      ((accumTrays entries).filterMap fun kv => qualTray kv.2).length := by
  have hnd := accumTrays_keys_nodup entries
  have hcan : emitTrays (accumTrays entries) ((accumTrays entries).map Prod.fst) =
      (accumTrays entries).filterMap fun kv => qualTray kv.2 := by
    rw [emitTrays_eq_filterMap]
    exact lookup_filterMap qualTray (accumTrays entries) hnd
  have hpermEmit : (emitTrays (accumTrays entries) order).Perm
      ((accumTrays entries).filterMap fun kv => qualTray kv.2) := by
    rw [← hcan, emitTrays_eq_filterMap, emitTrays_eq_filterMap]
    exact hperm.filterMap _
  refine ⟨hpermEmit, ?_, hpermEmit.length_eq⟩
  intro t ht
  rw [emitTrays_eq_filterMap] at ht
  obtain ⟨k, hk, hqt⟩ := List.mem_filterMap.mp ht
  cases hlk : lookupRow k (accumTrays entries) with
  | none => rw [hlk] at hqt; simp at hqt
  | some rr =>
    rw [hlk] at hqt
    simp only [Option.some_bind] at hqt
    exact qualTray_name rr t hqt

/-- Witness for the C9 amended theorem at the concrete tray walk with
the reversed iteration order. -/
theorem trays_emit_amended_witness :
    (emitTrays (accumTrays trayWalkEntries) ["1.2", "1.1"]).Perm
      ((accumTrays trayWalkEntries).filterMap fun kv => qualTray kv.2) ∧
    (∀ t ∈ emitTrays (accumTrays trayWalkEntries) ["1.2", "1.1"], t.name ≠ "") ∧
    (emitTrays (accumTrays trayWalkEntries) ["1.2", "1.1"]).length =
      ((accumTrays trayWalkEntries).filterMap fun kv => qualTray kv.2).length :=
  trays_emit_amended trayWalkEntries ["1.2", "1.1"] (List.Perm.swap "1.1" "1.2" [])

/-- C2 (counterexample): on a supplies walk accumulating the qualifying
toner rows 1.1 (40/100) and 1.2 (80/100) in that order plus a
drum-class row 1.3 (50/100), with the (equally legal) map iteration
order visiting 1.2 first, the toner percentage comes from row 1.2 (80),
not from the first accumulated row 1.1 (40); and the drum fields stay
at 0 after the whole poll — no drum percentage is computed at
aggregation time, contradicting the claim. -/
theorem consumables_counterexample :
    tonerScanOracle.supplyOrder.Perm ((accumSupplies tonerWalkEntries).map Prod.fst) ∧
    lookupRow "1.1" (accumSupplies tonerWalkEntries) =
      some { supplyClass := some 3, maxCapacity := some 100, currentLevel := some 40 } ∧
    (getTonerLevels tonerScanOracle (initStatus "printer")).tonerLevel = 80 ∧
    ((80 : Int) ≠ 40) ∧
    lookupRow "1.3" (accumSupplies tonerWalkEntries) =
      some { supplyClass := some 9, maxCapacity := some 100, currentLevel := some 50 } ∧
    (Poll tonerScanOracle "printer").map PrinterStatus.drumLevel = Except.ok 0 ∧
    (Poll tonerScanOracle "printer").map PrinterStatus.drumMaxCapacity = Except.ok 0 ∧
    ((0 : Int) ≠ Int.tdiv (50 * 100) 100) := by
  exact ⟨List.Perm.swap "1.1" "1.2" ["1.3"], rfl, rfl, by decide, rfl, rfl, rfl,
    by decide⟩

/-- C2 (amended): (1) the drum fields are never written during `Poll`
(the drum percentage is not computed at aggregation time); (2) for the
toner class, the percentage is `(level*100)/maxCapacity` of the first
row in the accumulator's iteration order with the toner class, positive
max capacity and non-negative level, and the scan stops there (no
averaging); (3) when no row in the iteration order qualifies, the toner
level is −1 (the "unknown" sentinel) exactly when some toner row
carries the −2 or −3 device sentinel as its level, and is otherwise
left unchanged; (4) the drum percentage is computed at render time from
the raw fields as floor(DrumLevel*100/DrumMaxCapacity). -/
theorem consumables_amended :
    (∀ (o : Oracle) (host : String) (r : PrinterStatus),
      Poll o host = Except.ok r → r.drumLevel = 0 ∧ r.drumMaxCapacity = 0) ∧
    (∀ (o : Oracle) (st : PrinterStatus) (entries : List (String × SnmpValue))
      (pre post : List String) (k : String) (r : SupplyRow),
      o.walks supplyBaseOID = some entries →
      o.supplyOrder = pre ++ k :: post →
      lookupRow k (accumSupplies entries) = some r → qualRow r = true →
      (∀ j ∈ pre, ∀ rj, lookupRow j (accumSupplies entries) = some rj →
        qualRow rj = false) →
      (getTonerLevels o st).tonerLevel = rowPct r) ∧
    (∀ (o : Oracle) (st : PrinterStatus) (entries : List (String × SnmpValue)),
      o.walks supplyBaseOID = some entries →
      (∀ j ∈ o.supplyOrder, ∀ rj, lookupRow j (accumSupplies entries) = some rj →
        qualRow rj = false) →
      (getTonerLevels o st).tonerLevel =
        if hasSentinel (accumSupplies entries) o.supplyOrder then -1
        else st.tonerLevel) ∧
    (∀ p : PrinterStatus, 0 < p.drumLevel → 0 < p.drumMaxCapacity →
      renderDrumLine p =
        "   Drum Level: " ++ toString (Int.fdiv (p.drumLevel * 100) p.drumMaxCapacity)
          ++ "% (" ++ toString p.drumLevel ++ "/" ++ toString p.drumMaxCapacity
          ++ ")\n") := by
  refine ⟨?_, ?_, ?_, ?_⟩
  · intro o host r hpoll
    unfold Poll at hpoll
    split at hpoll
    · injection hpoll with h2
      rw [← h2]
      obtain ⟨hd1, hd2⟩ := runProbes_drum o (initStatus host)
      exact ⟨hd1, hd2⟩
    · exact absurd hpoll (by simp)
  · intro o st entries pre post k r hw horder hk hq hpre
    unfold getTonerLevels
    rw [hw]
    dsimp only
    rw [horder]
    exact scanToner_first (accumSupplies entries) k post r hk hq pre st.tonerLevel hpre
  · intro o st entries hw hno
    unfold getTonerLevels
    rw [hw]
    dsimp only
    exact scanToner_noqual (accumSupplies entries) o.supplyOrder st.tonerLevel hno
  · intro p hdl hdm
    unfold renderDrumLine
    rw [if_pos ⟨hdl, hdm⟩]
    have hdiv : Int.tdiv (p.drumLevel * 100) p.drumMaxCapacity =
        Int.fdiv (p.drumLevel * 100) p.drumMaxCapacity := by
      rw [Int.tdiv_eq_ediv (mul_nonneg (le_of_lt hdl) (by norm_num))
          (le_of_lt hdm),
        Int.fdiv_eq_ediv _ (le_of_lt hdm)]
    rw [hdiv]

/-- Witness for the C2 amended theorem: the all-probes-fail device for
clause 1, the two-toner-row device in first-seen iteration order for
clause 2, the sentinel-only device for clause 3, and a 50/100 drum
record for clause 4. -/
theorem consumables_amended_witness :
    ((runProbes allFailOracle (initStatus "printer")).drumLevel = 0 ∧
      (runProbes allFailOracle (initStatus "printer")).drumMaxCapacity = 0) ∧
    (getTonerLevels tonerScanOracleW (initStatus "printer")).tonerLevel =
      rowPct { supplyClass := some 3, maxCapacity := some 100,
               currentLevel := some 40 } ∧
    (getTonerLevels tonerSentinelOracle (initStatus "printer")).tonerLevel =
      (if hasSentinel (accumSupplies tonerSentinelEntries)
          tonerSentinelOracle.supplyOrder then -1
        else (initStatus "printer").tonerLevel) ∧
    renderDrumLine { drumLevel := 50, drumMaxCapacity := 100 } =
      "   Drum Level: " ++ toString (Int.fdiv ((50 : Int) * 100) 100)
        ++ "% (" ++ toString (50 : Int) ++ "/" ++ toString (100 : Int) ++ ")\n" := by
  refine ⟨consumables_amended.1 allFailOracle "printer" _ rfl, ?_, ?_, ?_⟩
  · exact consumables_amended.2.1 tonerScanOracleW (initStatus "printer")
      tonerWalkEntries [] ["1.2", "1.3"] "1.1" _ rfl rfl rfl (by decide)
      (by intro j hj; simp at hj)
  · refine consumables_amended.2.2.1 tonerSentinelOracle (initStatus "printer")
      tonerSentinelEntries rfl ?_
    intro j hj rj hrj
    simp only [tonerSentinelOracle, List.mem_singleton] at hj
    subst hj
    have hrow : rj = (⟨some 3, none, none, some (-2)⟩ : SupplyRow) := by
      have h2 : (some (⟨some 3, none, none, some (-2)⟩ : SupplyRow)) = some rj := by
        rw [← hrj]
        decide
      exact (Option.some.inj h2).symm
    rw [hrow]
    decide
  · exact consumables_amended.2.2.2 { drumLevel := 50, drumMaxCapacity := 100 }
      (by decide) (by decide)
